import Mathlib

/-!
Verification development for the ratel-core JavaScript parser front end.

The development shallowly embeds the three source files of the repository:

* `src/core/src/ast/expression.rs` — the expression AST, `binding_power`,
  and `is_allowed_as_bare_statement`;
* `src/core/src/parser/statement.rs` — the statement parser;
* `src/core/src/astgen/statement.rs` — the ESTree JSON serializer for
  statements, catch clauses and declarator ids.

Rust arena pointers (`ExpressionPtr`, `StatementPtr`, …) are embedded as the
pointed-to values themselves (`Loc Expression`, `Loc Statement`, …): the arena
only provides stable storage and plays no semantic role.  Rust's `Loc` field
`end` is a Lean keyword, so the embedded field is named `stop`.

Components of the repository that the three files call into but whose code is
not part of the source tree (the lexer's `Token`, `OperatorKind` and its
binding powers, the Pratt expression parser, the `expect!`-family macros, the
`SerializeInLoc` wrapper) are modelled from the specification; each such
definition carries a doc comment starting with `Modelled from the spec:`.
-/

namespace Ratel

/-- Byte-offset location wrapper from `ast` (`Loc<T>` with fields `start`,
`end`, `item`); the Rust field `end` is embedded as `stop`. -/
structure Loc (T : Type) where
  start : Nat
  stop : Nat
  item : T
  deriving Repr

/-- Constructor mirroring Rust `Loc::new(start, end, item)`. -/
def Loc.new {T : Type} (start stop : Nat) (item : T) : Loc T :=
  ⟨start, stop, item⟩

/-- Helper mirroring `item.at(start, end)` from the `ast` module. -/
def at_loc {T : Type} (item : T) (start stop : Nat) : Loc T :=
  ⟨start, stop, item⟩

/-- Modelled from the spec: the declaration keywords `var`, `let`, `const`
(§3, `Declaration{kind: var|let|const, …}`). -/
inductive DeclarationKind where
  | Var
  | Let
  | Const
  deriving Repr, DecidableEq

/-- Modelled from the spec: the operator kinds named by the binding-power
table of §4.4 and the operators the statement parser inspects (`In`,
`Assign`, `Increment`).  The numeric binding powers follow the table. -/
inductive OperatorKind where
  | In
  | Instanceof
  | New
  | Increment
  | Decrement
  | LogicalNot
  | BitwiseNot
  | Typeof
  | Void
  | Delete
  | Multiplication
  | Division
  | Remainder
  | Exponent
  | Addition
  | Subtraction
  | BitShiftLeft
  | BitShiftRight
  | UBitShiftRight
  | Lesser
  | LesserEquals
  | Greater
  | GreaterEquals
  | StrictEquality
  | StrictInequality
  | Equality
  | Inequality
  | BitwiseAnd
  | BitwiseXor
  | BitwiseOr
  | LogicalAnd
  | LogicalOr
  | Conditional
  | Assign
  | AddAssign
  | SubtractAssign
  | ExponentAssign
  | MultiplyAssign
  | DivideAssign
  | RemainderAssign
  | BSLAssign
  | BSRAssign
  | UBSRAssign
  | BitAndAssign
  | BitXorAssign
  | BitOrAssign
  | Spread
  deriving Repr, DecidableEq

/-- Modelled from the spec: `OperatorKind::binding_power` following the
binding-power table of §4.4 (higher binds tighter). -/
def OperatorKind.binding_power (op : OperatorKind) : Nat :=
  match op with
  | .In | .Instanceof => 10
  | .New => 18
  | .Increment | .Decrement => 15
  | .LogicalNot | .BitwiseNot | .Typeof | .Void | .Delete => 15
  | .Multiplication | .Division | .Remainder => 13
  | .Exponent => 14
  | .Addition | .Subtraction => 12
  | .BitShiftLeft | .BitShiftRight | .UBitShiftRight => 11
  | .Lesser | .LesserEquals | .Greater | .GreaterEquals => 10
  | .StrictEquality | .StrictInequality | .Equality | .Inequality => 9
  | .BitwiseAnd => 8
  | .BitwiseXor => 7
  | .BitwiseOr => 6
  | .LogicalAnd => 5
  | .LogicalOr => 4
  | .Conditional => 4
  | .Assign | .AddAssign | .SubtractAssign | .ExponentAssign
  | .MultiplyAssign | .DivideAssign | .RemainderAssign
  | .BSLAssign | .BSRAssign | .UBSRAssign
  | .BitAndAssign | .BitXorAssign | .BitOrAssign => 3
  | .Spread => 1

/-- Modelled from the spec: literal values (§4.2 recognizes number, string,
true/false/null literal tokens; literals keep their source substring). -/
inductive Literal where
  | True
  | False
  | Null
  | Undefined
  | Number (value : String)
  | String (value : String)
  deriving Repr, DecidableEq

mutual

/-- The `Expression` tagged union from `ast/expression.rs`.  The Rust payload
structs (`BinaryExpression`, `MemberExpression`, …) are inlined as
constructor fields with the source field names and order. -/
inductive Expression where
  | Error
  | Void
  | This
  | Identifier (name : String)
  | Literal (value : Literal)
  | Sequence (body : List (Loc Expression))
  | Array (body : List (Loc Expression))
  | Member (object : Loc Expression) (property : Loc String)
  | ComputedMember (object : Loc Expression) (property : Loc Expression)
  | Call (callee : Loc Expression) (arguments : List (Loc Expression))
  | Binary (operator : OperatorKind) (left : Loc Expression) (right : Loc Expression)
  | Prefix (operator : OperatorKind) (operand : Loc Expression)
  | Postfix (operator : OperatorKind) (operand : Loc Expression)
  | Conditional (test : Loc Expression) (consequent : Loc Expression) (alternate : Loc Expression)
  | Template (tag : Option (Loc Expression)) (expressions : List (Loc Expression)) (quasis : List (Loc String))
  | Arrow (params : List (Loc Expression)) (body : ArrowBody)
  | Object (body : List (Loc ObjectMember))
  | Function (function : Function)
  | Class (cls : Class)

/-- `ArrowBody` from `ast/expression.rs`. -/
inductive ArrowBody where
  | Expression (e : Loc Expression)
  | Block (s : Loc Statement)

/-- `Property` from `ast/expression.rs`. -/
inductive Property where
  | Computed (e : Loc Expression)
  | Literal (value : String)
  | Binary (value : String)

/-- `ObjectMember` from `ast/expression.rs`. -/
inductive ObjectMember where
  | Shorthand (name : String)
  | Literal (property : Loc Property) (value : Loc Expression)
  | Method (property : Loc Property) (params : List (Loc Expression)) (body : List (Loc Statement))

/-- Modelled from the spec: `Function{name, params, body}` (§3); the name is
optional for function expressions and always present (`some`) on function
declaration statements. -/
inductive Function where
  | mk (name : Option (Loc String)) (params : List (Loc Expression)) (body : List (Loc Statement))

/-- Modelled from the spec: `Class{name, extends?, body}` (§3); the Rust
field `extends` is a Lean keyword and is embedded as `extends_`. -/
inductive Class where
  | mk (name : Option (Loc String)) (extends_ : Option (Loc Expression)) (body : List (Loc ObjectMember))

/-- `Declarator` from the parser: `{ name: ExpressionPtr, value:
Option<ExpressionPtr> }` (spec §3: name is an Identifier or an Array/Object
pattern). -/
inductive Declarator where
  | mk (name : Loc Expression) (value : Option (Loc Expression))

/-- The `Statement` tagged union (spec §3; variant payloads as used by
`parser/statement.rs` and `astgen/statement.rs`). -/
inductive Statement where
  | Error
  | Empty
  | Expression (expression : Loc Expression)
  | Declaration (kind : DeclarationKind) (declarators : List (Loc Declarator))
  | Return (value : Option (Loc Expression))
  | Break (label : Option (Loc Expression))
  | Continue (label : Option (Loc Expression))
  | Throw (value : Loc Expression)
  | If (test : Loc Expression) (consequent : Loc Statement) (alternate : Option (Loc Statement))
  | While (test : Loc Expression) (body : Loc Statement)
  | Do (body : Loc Statement) (test : Loc Expression)
  | For (init : Option (Loc Statement)) (test : Option (Loc Expression)) (update : Option (Loc Expression)) (body : Loc Statement)
  | ForIn (left : Loc Statement) (right : Loc Expression) (body : Loc Statement)
  | ForOf (left : Loc Statement) (right : Loc Expression) (body : Loc Statement)
  | Try (body : List (Loc Statement)) (error : Loc Expression) (handler : List (Loc Statement))
  | Block (body : List (Loc Statement))
  | Labeled (label : String) (body : Loc Statement)
  | Function (function : Function)
  | Class (cls : Class)
  | Switch (discriminant : Loc Expression) (cases : List (Loc Statement))
  | SwitchCase (test : Option (Loc Expression)) (consequent : List (Loc Statement))

end

/-- Accessor for the `name` field of `Declarator`. -/
def Declarator.name : Declarator → Loc Expression
  | .mk n _ => n

/-- Accessor for the `value` field of `Declarator`. -/
def Declarator.value : Declarator → Option (Loc Expression)
  | .mk _ v => v

/-- Accessor for the `name` field of `Function`. -/
def Function.name : Function → Option (Loc String)
  | .mk n _ _ => n

/-- Accessor for the `params` field of `Function`. -/
def Function.params : Function → List (Loc Expression)
  | .mk _ p _ => p

/-- Accessor for the `body` field of `Function`. -/
def Function.body : Function → List (Loc Statement)
  | .mk _ _ b => b

/-- `Expression::binding_power` from `ast/expression.rs` lines 161-182:
Member and Arrow are 18, Call is 17, Prefix is 15, Binary and Postfix defer
to the operator's own binding power, Conditional is 4, Sequence is 0, and
every other variant is 100. -/
def Expression.binding_power (e : Expression) : Nat :=
  match e with
  | .Member _ _ | .Arrow _ _ => 18
  | .Call _ _ => 17
  | .Prefix _ _ => 15
  | .Binary operator _ _ => OperatorKind.binding_power operator
  | .Postfix operator _ => OperatorKind.binding_power operator
  | .Conditional _ _ _ => 4
  | .Sequence _ => 0
  | _ => 100

/-- `Expression::is_allowed_as_bare_statement` from `ast/expression.rs`
lines 184-194: false for Object, Function and Class, true otherwise. -/
def Expression.is_allowed_as_bare_statement (e : Expression) : Bool :=
  match e with
  | .Object _ | .Function _ | .Class _ => false
  | _ => true

/-- `List::only_element` from the ast list module: returns the sole element
when the list has length one (used by the for-loop disambiguation, spec §3). -/
def only_element {α : Type} : List α → Option α
  | [x] => some x
  | _ => none

/-! ### The ESTree JSON serializer (`astgen/statement.rs`)

JSON documents are modelled by the `Json` inductive; an emitted `serde`
struct becomes a `Json.obj` whose fields appear in `serialize_field` call
order.  A Rust `panic!` during serialization is modelled as `none`. -/

/-- JSON values as emitted by the ESTree serializer. -/
inductive Json where
  | null
  | str (s : String)
  | num (n : Nat)
  | bool (b : Bool)
  | arr (elements : List Json)
  | obj (fields : List (String × Json))
  deriving Repr

/-- Looks up the first field with the given key in a field list. -/
def lookupField (fields : List (String × Json)) (key : String) : Option Json :=
  match fields with
  | [] => none
  | (k, v) :: rest => if k = key then some v else lookupField rest key

/-- Looks up a field of a JSON object by key. -/
def jsonField (j : Json) (key : String) : Option Json :=
  match j with
  | .obj fields => lookupField fields key
  | _ => none

/-- `DeclaratorId` from `astgen/statement.rs`: a declarator id is either a
plain identifier or a pattern expression. -/
inductive DeclaratorId where
  | Identifier (name : String)
  | Pattern (expr : Loc Expression)

/-- The `CatchClause` helper struct from `astgen/statement.rs`. -/
structure CatchClause where
  param : Loc Expression
  body : List (Loc Statement)

/-- The `BlockStatement` helper struct from `astgen/statement.rs`. -/
structure BlockStatement where
  body : List (Loc Statement)

/-- Modelled from the spec: the JSON value of a literal (the serializer for
literals lives outside the three source files; literals keep their source
substring, §4.2, and the astgen tests show `true` emitted as a boolean and
numbers and `null` emitted as their source strings). -/
def jsonOfLiteral : Literal → Json
  | .True => .bool true
  | .False => .bool false
  | .Null => .str "null"
  | .Undefined => .str "undefined"
  | .Number value => .str value
  | .String value => .str value

/-- Modelled from the spec: the JavaScript source text of an operator, used
for the `"operator"` field of binary expressions (the operator table itself
is outside the three source files; §4.2 lists the operator lexemes). -/
def operatorName : OperatorKind → String
  | .In => "in"
  | .Instanceof => "instanceof"
  | .New => "new"
  | .Increment => "++"
  | .Decrement => "--"
  | .LogicalNot => "!"
  | .BitwiseNot => "~"
  | .Typeof => "typeof"
  | .Void => "void"
  | .Delete => "delete"
  | .Multiplication => "*"
  | .Division => "/"
  | .Remainder => "%"
  | .Exponent => "**"
  | .Addition => "+"
  | .Subtraction => "-"
  | .BitShiftLeft => "<<"
  | .BitShiftRight => ">>"
  | .UBitShiftRight => ">>>"
  | .Lesser => "<"
  | .LesserEquals => "<="
  | .Greater => ">"
  | .GreaterEquals => ">="
  | .StrictEquality => "==="
  | .StrictInequality => "!=="
  | .Equality => "=="
  | .Inequality => "!="
  | .BitwiseAnd => "&"
  | .BitwiseXor => "^"
  | .BitwiseOr => "|"
  | .LogicalAnd => "&&"
  | .LogicalOr => "||"
  | .Conditional => "?"
  | .Assign => "="
  | .AddAssign => "+="
  | .SubtractAssign => "-="
  | .ExponentAssign => "**="
  | .MultiplyAssign => "*="
  | .DivideAssign => "/="
  | .RemainderAssign => "%="
  | .BSLAssign => "<<="
  | .BSRAssign => ">>="
  | .UBSRAssign => ">>>="
  | .BitAndAssign => "&="
  | .BitXorAssign => "^="
  | .BitOrAssign => "|="
  | .Spread => "..."

/-- The serialized form of `"kind"` for a variable declaration. -/
def kindName : DeclarationKind → String
  | .Var => "var"
  | .Let => "let"
  | .Const => "const"

/-- Modelled from the spec: serialization of an optional function or class
name (`OptionalName` / `MandatoryName` serializers are outside the three
source files): `null` when absent, an ESTree `Identifier` otherwise. -/
def serializeName : Option (Loc String) → Json
  | none => .null
  | some n => .obj [("type", .str "Identifier"), ("name", .str n.item),
      ("start", .num n.start), ("end", .num n.stop)]

/-- Bridge between the parser's `Declarator.name : Loc Expression` and the
serializer's `DeclaratorId`: an identifier expression is a plain identifier
id, anything else is a pattern. -/
def declaratorIdOfName (name : Loc Expression) : Loc DeclaratorId :=
  match name with
  | ⟨start, stop, .Identifier ident⟩ => ⟨start, stop, .Identifier ident⟩
  | e => ⟨e.start, e.stop, .Pattern e⟩

mutual

/-- Modelled from the spec: the ESTree serializer for expressions
(`astgen/expression.rs` is not part of the source tree).  Following §4.6,
each node carries `type`, its fields, `start` and `end`; an `Error` node is
a panic (§7).  Variants outside the fragment the claims exercise are left
unmodelled (`none`). -/
def serializeExpression (f : Nat) (e : Loc Expression) : Option Json :=
  match f with
  | 0 => none
  | f+1 =>
    match e.item with
    | .This =>
        some (.obj [("type", .str "ThisExpression"),
          ("start", .num e.start), ("end", .num e.stop)])
    | .Identifier name =>
        some (.obj [("type", .str "Identifier"), ("name", .str name),
          ("start", .num e.start), ("end", .num e.stop)])
    | .Literal value =>
        some (.obj [("type", .str "Literal"), ("value", jsonOfLiteral value),
          ("start", .num e.start), ("end", .num e.stop)])
    | .Array body => do
        let elements ← serializeExpressionList f body
        some (.obj [("type", .str "ArrayExpression"), ("elements", .arr elements),
          ("start", .num e.start), ("end", .num e.stop)])
    | .Object body => do
        let properties ← serializeObjectMemberList f body
        some (.obj [("type", .str "ObjectExpression"), ("properties", .arr properties),
          ("start", .num e.start), ("end", .num e.stop)])
    | .Binary operator left right => do
        let leftJson ← serializeExpression f left
        let rightJson ← serializeExpression f right
        some (.obj [("type", .str "BinaryExpression"),
          ("operator", .str (operatorName operator)),
          ("left", leftJson), ("right", rightJson),
          ("start", .num e.start), ("end", .num e.stop)])
    | _ => none

/-- Serializes a list of expressions element by element. -/
def serializeExpressionList (f : Nat) (es : List (Loc Expression)) : Option (List Json) :=
  match f with
  | 0 => none
  | f+1 =>
    match es with
    | [] => some []
    | e :: rest => do
        let j ← serializeExpression f e
        let js ← serializeExpressionList f rest
        some (j :: js)

/-- Modelled from the spec: serialization of object members (the object
member serializer is outside the three source files); only shorthand
members are in the modelled fragment. -/
def serializeObjectMemberList (f : Nat) (ms : List (Loc ObjectMember)) : Option (List Json) :=
  match f with
  | 0 => none
  | f+1 =>
    match ms with
    | [] => some []
    | m :: rest =>
      match m.item with
      | .Shorthand name => do
          let js ← serializeObjectMemberList f rest
          some (Json.obj [("type", .str "Property"), ("name", .str name),
            ("start", .num m.start), ("end", .num m.stop)] :: js)
      | _ => none

/-- Serialization of an optional expression: `null` when absent
(spec §6: null is used for absent optional fields). -/
def serializeOptExpression (f : Nat) (o : Option (Loc Expression)) : Option Json :=
  match f with
  | 0 => none
  | f+1 =>
    match o with
    | none => some .null
    | some e => serializeExpression f e

/-- Serialization of an optional statement: `null` when absent. -/
def serializeOptStatement (f : Nat) (o : Option (Loc Statement)) : Option Json :=
  match f with
  | 0 => none
  | f+1 =>
    match o with
    | none => some .null
    | some st => serializeLocStatement f st

/-- `impl Serialize for Loc<BlockStatement>` from `astgen/statement.rs`
lines 19-27 together with the spec-modelled `SerializeInLoc` wrapper (§4.6:
`type` first, then the fields, then `start` and `end`). -/
def serializeLocBlockStatement (f : Nat) (l : Loc BlockStatement) : Option Json :=
  match f with
  | 0 => none
  | f+1 => do
    let body ← serializeStatementList f l.item.body
    some (.obj [("type", .str "BlockStatement"), ("body", .arr body),
      ("start", .num l.start), ("end", .num l.stop)])

/-- `impl Serialize for Loc<CatchClause>` from `astgen/statement.rs` lines
29-42: fields `type`, `param`, `body` (a `BlockStatement` wrapped at the
clause's own `start`/`end`), `start`, `end`. -/
def serializeLocCatchClause (f : Nat) (l : Loc CatchClause) : Option Json :=
  match f with
  | 0 => none
  | f+1 => do
    let param ← serializeExpression f l.item.param
    let body ← serializeLocBlockStatement f (Loc.new l.start l.stop ⟨l.item.body⟩)
    some (.obj [("type", .str "CatchClause"), ("param", param), ("body", body),
      ("start", .num l.start), ("end", .num l.stop)])

/-- `impl Serialize for Loc<DeclaratorId>` from `astgen/statement.rs` lines
59-85: an identifier id re-serializes as an `Identifier` expression at the
id's location; an `Array` pattern emits `type`, `elements`, a field
literally named `self` holding `start`, and `end`; any other pattern
(including `Object`) panics with `Unimplemented`. -/
def serializeLocDeclaratorId (f : Nat) (l : Loc DeclaratorId) : Option Json :=
  match f with
  | 0 => none
  | f+1 =>
    match l.item with
    | .Identifier ident =>
        serializeExpression f (Loc.new l.start l.stop (.Identifier ident))
    | .Pattern expr =>
      match expr.item with
      | .Array body => do
          let elements ← serializeExpressionList f body
          some (.obj [("type", .str "ArrayPattern"), ("elements", .arr elements),
            ("self", .num l.start), ("end", .num l.stop)])
      | _ => none

/-- `impl Serialize for Loc<Declarator>` from `astgen/statement.rs` lines
44-56: fields `type`, `id` (the name wrapped at the declarator's own
`start`/`end`), `init`, `start`, `end`. -/
def serializeLocDeclarator (f : Nat) (l : Loc Declarator) : Option Json :=
  match f with
  | 0 => none
  | f+1 =>
    match l.item with
    | .mk name value => do
        let idJson ← serializeLocDeclaratorId f
          (Loc.new l.start l.stop (declaratorIdOfName name).item)
        let initJson ← serializeOptExpression f value
        some (.obj [("type", .str "VariableDeclarator"), ("id", idJson),
          ("init", initJson), ("start", .num l.start), ("end", .num l.stop)])

/-- Serializes a list of declarators element by element. -/
def serializeDeclaratorList (f : Nat) (ds : List (Loc Declarator)) : Option (List Json) :=
  match f with
  | 0 => none
  | f+1 =>
    match ds with
    | [] => some []
    | d :: rest => do
        let j ← serializeLocDeclarator f d
        let js ← serializeDeclaratorList f rest
        some (j :: js)

/-- Serializes a list of statements element by element. -/
def serializeStatementList (f : Nat) (sts : List (Loc Statement)) : Option (List Json) :=
  match f with
  | 0 => none
  | f+1 =>
    match sts with
    | [] => some []
    | st :: rest => do
        let j ← serializeLocStatement f st
        let js ← serializeStatementList f rest
        some (j :: js)

/-- Modelled from the spec: serialization of a class body (the `ClassBody`
wrapper lives in `astgen/function.rs`, outside the source tree): `type`,
`body`, `start`, `end`. -/
def serializeLocClassBody (f : Nat) (l : Loc (List (Loc ObjectMember))) : Option Json :=
  match f with
  | 0 => none
  | f+1 => do
    let body ← serializeObjectMemberList f l.item
    some (.obj [("type", .str "ClassBody"), ("body", .arr body),
      ("start", .num l.start), ("end", .num l.stop)])

/-- `impl Serialize for Loc<Statement>` from `astgen/statement.rs` lines
87-253.  Each arm lists its fields in `serialize_field` call order; the
wrapper then appends `start` and `end` from the statement's own `Loc`.
`Statement::Error` panics (`Module contains errors`). -/
def serializeLocStatement (f : Nat) (l : Loc Statement) : Option Json :=
  match f with
  | 0 => none
  | f+1 => do
    let fields ←
      match l.item with
      | .Error => none
      | .Empty => some [("type", Json.str "EmptyStatement")]
      | .Expression expression => do
          let e ← serializeExpression f expression
          some [("type", Json.str "ExpressionStatement"), ("expression", e)]
      | .Declaration kind declarators => do
          let ds ← serializeDeclaratorList f declarators
          some [("type", Json.str "VariableDeclaration"),
            ("kind", Json.str (kindName kind)), ("declarations", Json.arr ds)]
      | .Return value => do
          let v ← serializeOptExpression f value
          some [("type", Json.str "ReturnStatement"), ("argument", v)]
      | .Break label => do
          let lj ← serializeOptExpression f label
          some [("type", Json.str "BreakStatement"), ("label", lj)]
      | .Throw value => do
          let v ← serializeExpression f value
          some [("type", Json.str "ThrowStatement"), ("argument", v)]
      | .If test consequent alternate => do
          let t ← serializeExpression f test
          let c ← serializeLocStatement f consequent
          let a ← serializeOptStatement f alternate
          some [("type", Json.str "IfStatement"), ("test", t),
            ("consequent", c), ("alternate", a)]
      | .While test body => do
          let t ← serializeExpression f test
          let b ← serializeLocStatement f body
          some [("type", Json.str "WhileStatement"), ("test", t), ("body", b)]
      | .Do body test => do
          let b ← serializeLocStatement f body
          let t ← serializeExpression f test
          some [("type", Json.str "DoWhileStatement"), ("body", b), ("test", t)]
      | .For init test update body => do
          let i ← serializeOptStatement f init
          let t ← serializeOptExpression f test
          let u ← serializeOptExpression f update
          let b ← serializeLocStatement f body
          some [("type", Json.str "ForStatement"), ("init", i), ("test", t),
            ("update", u), ("body", b)]
      | .ForIn left right body => do
          let lj ← serializeLocStatement f left
          let r ← serializeExpression f right
          let b ← serializeLocStatement f body
          some [("type", Json.str "ForInStatement"), ("left", lj),
            ("right", r), ("body", b)]
      | .ForOf left right body => do
          let lj ← serializeLocStatement f left
          let r ← serializeExpression f right
          let b ← serializeLocStatement f body
          some [("type", Json.str "ForOfStatement"), ("left", lj),
            ("right", r), ("body", b)]
      | .Try body error handler => do
          let blockJson ← serializeLocBlockStatement f (Loc.new l.start l.stop ⟨body⟩)
          let handlerJson ← serializeLocCatchClause f (Loc.new l.start l.stop ⟨error, handler⟩)
          some [("type", Json.str "TryStatement"), ("block", blockJson),
            ("handler", handlerJson)]
      | .Block body => do
          let b ← serializeStatementList f body
          some [("type", Json.str "BlockStatement"), ("body", Json.arr b)]
      | .Labeled label body => do
          let b ← serializeLocStatement f body
          some [("type", Json.str "LabeledStatement"),
            ("label", Json.str label), ("body", b)]
      | .Function function => do
          let params ← serializeExpressionList f (Function.params function)
          let bodyField ←
            match only_element (Function.body function) with
            | some ⟨_, _, .Block _⟩ => do
                let b ← serializeStatementList f (Function.body function)
                some (Json.arr b)
            | _ => serializeLocBlockStatement f (Loc.new l.start l.stop ⟨Function.body function⟩)
          some [("type", Json.str "FunctionDeclaration"),
            ("id", serializeName (Function.name function)),
            ("params", Json.arr params), ("body", bodyField)]
      | .Class cls => do
          match cls with
          | .mk name extends_ body => do
            let superJson ← serializeOptExpression f extends_
            let bodyJson ← serializeLocClassBody f (Loc.new l.start l.stop body)
            some [("type", Json.str "ClassDeclaration"), ("id", serializeName name),
              ("superClass", superJson), ("body", bodyJson)]
      | .Continue label => do
          let lj ← serializeOptExpression f label
          some [("type", Json.str "ContinueStatement"), ("label", lj)]
      | .Switch discriminant cases => do
          let d ← serializeExpression f discriminant
          let cs ← serializeStatementList f cases
          some [("type", Json.str "SwitchStatement"), ("discriminant", d),
            ("cases", Json.arr cs)]
      | .SwitchCase test consequent => do
          let t ← serializeOptExpression f test
          let cs ← serializeStatementList f consequent
          some [("type", Json.str "SwitchCase"), ("test", t),
            ("consequent", Json.arr cs)]
    some (Json.obj (fields ++ [("start", Json.num l.start), ("end", Json.num l.stop)]))

end

/-! ### The statement parser (`parser/statement.rs`)

The parser is embedded as explicit state passing over a token stream:
each parsing function maps a `ParserState` to `Except PError (result ×
ParserState)`.  Recursion is bounded by a fuel parameter; running out of
fuel is reported as `UnexpectedEndOfInput`, so a successful (`.ok`) result
is never an artifact of insufficient fuel. -/

/-- Parse error kinds (spec §7). -/
inductive PError where
  | UnexpectedToken
  | UnexpectedEndOfInput
  | MissingName
  | InvalidPattern
  deriving Repr, DecidableEq

/-- Modelled from the spec: the lexer's `Token` kinds (§4.2): keywords,
punctuation, operators, literals, identifiers, and end of input.  The
statement parser matches on `Semicolon`, `Identifier`, `BraceOpen`,
`Declaration`, `Return`, `Break`, `Function`, `Class`, `If`, `While`, `Do`,
`For`, `Throw`, `Try`, `Colon`, `Comma`, `Catch`, `ParenOpen`,
`ParenClose`, `BracketOpen`, `Else` and `Operator`; the keyword table of
§4.2 additionally contains `continue`, `switch`, `case` and `default`. -/
inductive Token where
  | EndOfProgram
  | Semicolon
  | Colon
  | Comma
  | ParenOpen
  | ParenClose
  | BraceOpen
  | BraceClose
  | BracketOpen
  | BracketClose
  | Identifier (label : String)
  | Literal (value : Literal)
  | This
  | Declaration (kind : DeclarationKind)
  | Return
  | Break
  | Continue
  | Throw
  | Try
  | Catch
  | If
  | Else
  | While
  | Do
  | For
  | Function
  | Class
  | Switch
  | Case
  | Default
  | Operator (op : OperatorKind)
  | UnexpectedToken
  deriving Repr, DecidableEq

/-- One lexed token with its byte span and whether a newline appeared
before it (tracked by the lexer for automatic semicolon insertion, §4.2). -/
structure Tok where
  start : Nat
  stop : Nat
  newline : Bool
  token : Token
  deriving Repr, DecidableEq

/-- The parser's cursor: the remaining token stream plus the span of the
most recently consumed token (which backs `in_loc` / `alloc_in_loc`). -/
structure ParserState where
  tokens : List Tok
  lastStart : Nat
  lastStop : Nat
  deriving Repr, DecidableEq

/-- `Parser::next`: advance and return the next token; at the end of input
the lexer yields `EndOfProgram`. -/
def next (s : ParserState) : Token × ParserState :=
  match s.tokens with
  | [] => (.EndOfProgram, s)
  | t :: rest => (t.token, ⟨rest, t.start, t.stop⟩)

/-- `Parser::peek`: the next token without consuming it. -/
def peek (s : ParserState) : Token :=
  match s.tokens with
  | [] => .EndOfProgram
  | t :: _ => t.token

/-- `Parser::consume`: drop the peeked token. -/
def consume (s : ParserState) : ParserState :=
  (next s).2

/-- Modelled from the spec: `in_loc` / `alloc_in_loc` wrap an item in the
span of the most recently consumed token (the arena allocation itself has
no semantic content). -/
def in_loc {T : Type} (s : ParserState) (item : T) : Loc T :=
  ⟨s.lastStart, s.lastStop, item⟩

/-- `Asi` from the lexer (§4.2). -/
inductive Asi where
  | ExplicitSemicolon
  | ImplicitSemicolon
  | NoSemicolon
  deriving Repr, DecidableEq

/-- Modelled from the spec: `asi()` (§4.2): `ExplicitSemicolon` when the
next token is `;`, `ImplicitSemicolon` when it is a closing brace or end of
input or a newline appeared since the last token, `NoSemicolon` otherwise. -/
def asi (s : ParserState) : Asi :=
  match s.tokens with
  | [] => .ImplicitSemicolon
  | t :: _ =>
    match t.token with
    | .Semicolon => .ExplicitSemicolon
    | .BraceClose => .ImplicitSemicolon
    | .EndOfProgram => .ImplicitSemicolon
    | _ => if t.newline then .ImplicitSemicolon else .NoSemicolon

/-- Modelled from the spec: the `expect!` macro: consume exactly the given
token or fail with `UnexpectedToken` (§7). -/
def expect (t : Token) (s : ParserState) : Except PError ParserState :=
  let (tok, s') := next s
  if tok = t then .ok s' else .error .UnexpectedToken

/-- Modelled from the spec: the `expect_semicolon!` macro (§4.3): on
`NoSemicolon` emits an error; on `ExplicitSemicolon` consumes; on
`ImplicitSemicolon` succeeds without consuming. -/
def expect_semicolon (s : ParserState) : Except PError ParserState :=
  match asi s with
  | .ExplicitSemicolon => .ok (consume s)
  | .ImplicitSemicolon => .ok s
  | .NoSemicolon => .error .UnexpectedToken

/-- Modelled from the spec: the `expect_identifier!` macro: the next token
must be an identifier, whose label is returned; otherwise the parse fails
with `MissingName` (§7 names `MissingName` as the error for a
function/class declaration without an identifier). -/
def expect_identifier (s : ParserState) : Except PError (String × ParserState) :=
  match next s with
  | (.Identifier label, s') => .ok (label, s')
  | _ => .error .MissingName

mutual

/-- Modelled from the spec: a primary expression (§4.4), restricted to the
fragment the statement-level claims exercise: identifiers, literals,
`this`, array expressions and object expressions.  The token handed in has
already been consumed by the caller. -/
def primary_expression (f : Nat) (t : Token) (s : ParserState) :
    Except PError (Loc Expression × ParserState) :=
  match f with
  | 0 => .error .UnexpectedEndOfInput
  | f+1 =>
    match t with
    | .Identifier label => .ok (in_loc s (.Identifier label), s)
    | .Literal value => .ok (in_loc s (.Literal value), s)
    | .This => .ok (in_loc s .This, s)
    | .BracketOpen => array_expression f s
    | .BraceOpen => object_expression f s
    | _ => .error .UnexpectedToken
termination_by structural f

/-- Modelled from the spec: an array expression after its `[` has been
consumed; elements are expressions separated by commas (§4.4). -/
def array_expression (f : Nat) (s : ParserState) :
    Except PError (Loc Expression × ParserState) :=
  match f with
  | 0 => .error .UnexpectedEndOfInput
  | f+1 =>
    match peek s with
    | .BracketClose =>
        .ok (⟨s.lastStart, (consume s).lastStop, .Array []⟩, consume s)
    | _ => array_elements f s.lastStart [] s
termination_by structural f

/-- Parses the remaining comma-separated elements of an array expression. -/
def array_elements (f : Nat) (start : Nat) (acc : List (Loc Expression)) (s : ParserState) :
    Except PError (Loc Expression × ParserState) :=
  match f with
  | 0 => .error .UnexpectedEndOfInput
  | f+1 =>
    match expression f 0 s with
    | .error e => .error e
    | .ok (item, s) =>
      match next s with
      | (.Comma, s) => array_elements f start (acc ++ [item]) s
      | (.BracketClose, s) => .ok (⟨start, s.lastStop, .Array (acc ++ [item])⟩, s)
      | _ => .error .UnexpectedToken
termination_by structural f

/-- Modelled from the spec: an object expression after its opening brace
has been consumed; the modelled fragment covers shorthand members (§4.4). -/
def object_expression (f : Nat) (s : ParserState) :
    Except PError (Loc Expression × ParserState) :=
  match f with
  | 0 => .error .UnexpectedEndOfInput
  | f+1 =>
    match peek s with
    | .BraceClose =>
        .ok (⟨s.lastStart, (consume s).lastStop, .Object []⟩, consume s)
    | _ => object_members f s.lastStart [] s

/-- Parses the remaining comma-separated shorthand members of an object
expression. -/
def object_members (f : Nat) (start : Nat) (acc : List (Loc ObjectMember)) (s : ParserState) :
    Except PError (Loc Expression × ParserState) :=
  match f with
  | 0 => .error .UnexpectedEndOfInput
  | f+1 =>
    match next s with
    | (.Identifier label, s) =>
      match next s with
      | (.Comma, s') =>
          object_members f start (acc ++ [in_loc s (ObjectMember.Shorthand label)]) s'
      | (.BraceClose, s') =>
          .ok (⟨start, s'.lastStop, .Object (acc ++ [in_loc s (ObjectMember.Shorthand label)])⟩, s')
      | _ => .error .UnexpectedToken
    | _ => .error .UnexpectedToken
termination_by structural f

/-- Modelled from the spec: the Pratt extension loop (§4.4): while the next
token is an operator binding tighter than `min_bp`, consume it and extend
the left operand with a `Binary` node whose right side is parsed at the
operator's binding power. -/
def complex_expression (f : Nat) (left : Loc Expression) (min_bp : Nat) (s : ParserState) :
    Except PError (Loc Expression × ParserState) :=
  match f with
  | 0 => .error .UnexpectedEndOfInput
  | f+1 =>
    match peek s with
    | .Operator op =>
      if min_bp < OperatorKind.binding_power op then
        let s := consume s
        match expression f (OperatorKind.binding_power op) s with
        | .error e => .error e
        | .ok (right, s) =>
            complex_expression f ⟨left.start, right.stop, .Binary op left right⟩ min_bp s
      else .ok (left, s)
    | _ => .ok (left, s)
termination_by structural f

/-- Modelled from the spec: `expression(min_bp)` (§4.4): consume a token,
parse a primary expression from it, then extend via the Pratt loop. -/
def expression (f : Nat) (min_bp : Nat) (s : ParserState) :
    Except PError (Loc Expression × ParserState) :=
  match f with
  | 0 => .error .UnexpectedEndOfInput
  | f+1 =>
    let (t, s) := next s
    expression_from f t min_bp s
termination_by structural f

/-- Modelled from the spec: `expression_from(token, min_bp)` (§4.4). -/
def expression_from (f : Nat) (t : Token) (min_bp : Nat) (s : ParserState) :
    Except PError (Loc Expression × ParserState) :=
  match f with
  | 0 => .error .UnexpectedEndOfInput
  | f+1 =>
    match primary_expression f t s with
    | .error e => .error e
    | .ok (left, s) => complex_expression f left min_bp s
termination_by structural f

/-- Modelled from the spec: `sequence_or(first)` (§4.4): if a comma
follows, collect a comma-separated `Sequence`, otherwise return the single
expression unwrapped. -/
def sequence_or (f : Nat) (first : Loc Expression) (s : ParserState) :
    Except PError (Loc Expression × ParserState) :=
  match f with
  | 0 => .error .UnexpectedEndOfInput
  | f+1 =>
    match peek s with
    | .Comma => sequence_body f first.start [first] (consume s)
    | _ => .ok (first, s)

/-- Parses the remaining expressions of a comma-separated sequence. -/
def sequence_body (f : Nat) (start : Nat) (acc : List (Loc Expression)) (s : ParserState) :
    Except PError (Loc Expression × ParserState) :=
  match f with
  | 0 => .error .UnexpectedEndOfInput
  | f+1 =>
    match expression f 0 s with
    | .error e => .error e
    | .ok (item, s) =>
      match peek s with
      | .Comma => sequence_body f start (acc ++ [item]) (consume s)
      | _ => .ok (⟨start, item.stop, .Sequence (acc ++ [item])⟩, s)
termination_by structural f

/-- Modelled from the spec: `sequence_or_expression()` (§4.4). -/
def sequence_or_expression (f : Nat) (s : ParserState) :
    Except PError (Loc Expression × ParserState) :=
  match f with
  | 0 => .error .UnexpectedEndOfInput
  | f+1 =>
    let (t, s) := next s
    sequence_or_expression_from f t s

/-- Modelled from the spec: `sequence_or_expression_from(token)` (§4.4). -/
def sequence_or_expression_from (f : Nat) (t : Token) (s : ParserState) :
    Except PError (Loc Expression × ParserState) :=
  match f with
  | 0 => .error .UnexpectedEndOfInput
  | f+1 =>
    match expression_from f t 0 s with
    | .error e => .error e
    | .ok (first, s) => sequence_or f first s

end

/-- The nested `if let` of `for_statement` lines 300-315: when the
declarator list has exactly one declarator whose initializer is a
`Binary { operator: In, right }` expression, yield that right operand. -/
def declaration_in_right (declarators : List (Loc Declarator)) : Option (Loc Expression) :=
  match only_element declarators with
  | some ⟨_, _, .mk _ (some value)⟩ =>
    match value.item with
    | .Binary .In _ right => some right
    | _ => none
  | _ => none

/-- Modelled from the spec: the comma-separated parameter list of a
function, up to and including the closing parenthesis (§4.5; restricted to
plain identifier parameters). -/
def function_params (f : Nat) (acc : List (Loc Expression)) (s : ParserState) :
    Except PError (List (Loc Expression) × ParserState) :=
  match f with
  | 0 => .error .UnexpectedEndOfInput
  | f+1 =>
    match next s with
    | (.ParenClose, s) => .ok (acc, s)
    | (.Identifier label, s) =>
      let param := in_loc s (Expression.Identifier label)
      match next s with
      | (.Comma, s) => function_params f (acc ++ [param]) s
      | (.ParenClose, s) => .ok (acc ++ [param], s)
      | _ => .error .UnexpectedToken
    | _ => .error .UnexpectedToken

/-- The initializer half of `Parser::variable_declarator` (lines 146-159):
an optional `= expression` initializer after the declarator's name; the
declarator is wrapped at `(0, 0)`. -/
def variable_declarator_value (f : Nat) (name : Loc Expression) (s : ParserState) :
    Except PError (Loc Declarator × ParserState) :=
  match f with
  | 0 => .error .UnexpectedEndOfInput
  | f+1 =>
    match peek s with
    | .Operator .Assign =>
      match expression f 0 (consume s) with
      | .error e => .error e
      | .ok (value, s) => .ok (Loc.new 0 0 (.mk name (some value)), s)
    | _ => .ok (Loc.new 0 0 (.mk name none), s)

/-- Modelled from the spec: `Parser::class` (a Lean keyword, embedded as
`class_`): parse the class body after the name (§4.5); the modelled
fragment covers an empty body and no extends clause. -/
def class_ (f : Nat) (name : Loc String) (s : ParserState) :
    Except PError (Class × ParserState) :=
  match f with
  | 0 => .error .UnexpectedEndOfInput
  | _+1 =>
    match expect .BraceOpen s with
    | .error e => .error e
    | .ok s =>
      match expect .BraceClose s with
      | .error e => .error e
      | .ok s => .ok (.mk (some name) none [], s)

mutual

/-- `Parser::statement` from `parser/statement.rs` lines 9-28: the
first-token dispatch.  Semicolon, Identifier, BraceOpen, Declaration,
Return, Break, Function, Class, If, While, Do, For, Throw and Try have
dedicated arms; every other token (including Continue and Switch) falls
through to `expression_statement`. -/
def statement (f : Nat) (t : Token) (s : ParserState) :
    Except PError (Loc Statement × ParserState) :=
  match f with
  | 0 => .error .UnexpectedEndOfInput
  | f+1 =>
    match t with
    | .Semicolon => .ok (in_loc s .Empty, s)
    | .Identifier label => labeled_or_expression_statement f label s
    | .BraceOpen => block_statement f s
    | .Declaration kind => variable_declaration_statement f kind s
    | .Return => return_statement f s
    | .Break => break_statement f s
    | .Function => function_statement f s
    | .Class => class_statement f s
    | .If => if_statement f s
    | .While => while_statement f s
    | .Do => do_statement f s
    | .For => for_statement f s
    | .Throw => throw_statement f s
    | .Try => try_statement f s
    | t => expression_statement f t s
termination_by structural f

/-- `Parser::expect_statement` from lines 30-34. -/
def expect_statement (f : Nat) (s : ParserState) :
    Except PError (Loc Statement × ParserState) :=
  match f with
  | 0 => .error .UnexpectedEndOfInput
  | f+1 =>
    let (t, s) := next s
    statement f t s
termination_by structural f

/-- `Parser::block_statement` from lines 36-41: the block body followed by
`.at(0, 0)`. -/
def block_statement (f : Nat) (s : ParserState) :
    Except PError (Loc Statement × ParserState) :=
  match f with
  | 0 => .error .UnexpectedEndOfInput
  | f+1 =>
    match block_body_tail f s with
    | .error e => .error e
    | .ok (body, s) => .ok (at_loc (.Block body) 0 0, s)
termination_by structural f

/-- Modelled from the spec: `block_body_tail`: statements until the closing
brace, which is consumed (§4.5). -/
def block_body_tail (f : Nat) (s : ParserState) :
    Except PError (List (Loc Statement) × ParserState) :=
  match f with
  | 0 => .error .UnexpectedEndOfInput
  | f+1 =>
    match peek s with
    | .BraceClose => .ok ([], consume s)
    | .EndOfProgram => .error .UnexpectedEndOfInput
    | _ =>
      match expect_statement f s with
      | .error e => .error e
      | .ok (st, s) =>
        match block_body_tail f s with
        | .error e => .error e
        | .ok (rest, s) => .ok (st :: rest, s)
termination_by structural f

/-- Modelled from the spec: `block_body`: expect an opening brace, then
`block_body_tail` (§4.5). -/
def block_body (f : Nat) (s : ParserState) :
    Except PError (List (Loc Statement) × ParserState) :=
  match f with
  | 0 => .error .UnexpectedEndOfInput
  | f+1 =>
    match expect .BraceOpen s with
    | .error e => .error e
    | .ok s => block_body_tail f s
termination_by structural f

/-- `Parser::expression_statement` from lines 43-54: the expression's span
becomes the statement's span. -/
def expression_statement (f : Nat) (t : Token) (s : ParserState) :
    Except PError (Loc Statement × ParserState) :=
  match f with
  | 0 => .error .UnexpectedEndOfInput
  | f+1 =>
    match sequence_or_expression_from f t s with
    | .error e => .error e
    | .ok (expression, s) =>
      let start := expression.start
      let stop := expression.stop
      match expect_semicolon s with
      | .error e => .error e
      | .ok s => .ok (at_loc (.Expression expression) start stop, s)

/-- `Parser::labeled_or_expression_statement` from lines 56-78. -/
def labeled_or_expression_statement (f : Nat) (label : String) (s : ParserState) :
    Except PError (Loc Statement × ParserState) :=
  match f with
  | 0 => .error .UnexpectedEndOfInput
  | f+1 =>
    match peek s with
    | .Colon =>
      let s := consume s
      match expect_statement f s with
      | .error e => .error e
      | .ok (body, s) => .ok (at_loc (.Labeled label body) 0 0, s)
    | _ =>
      let first := in_loc s (Expression.Identifier label)
      match complex_expression f first 0 s with
      | .error e => .error e
      | .ok (first, s) =>
        match sequence_or f first s with
        | .error e => .error e
        | .ok (expression, s) =>
          match expect_semicolon s with
          | .error e => .error e
          | .ok s => .ok (at_loc (.Expression expression) 0 0, s)
termination_by structural f

/-- `Parser::function_statement` from lines 80-88: the name is required
(`expect_identifier!`). -/
def function_statement (f : Nat) (s : ParserState) :
    Except PError (Loc Statement × ParserState) :=
  match f with
  | 0 => .error .UnexpectedEndOfInput
  | f+1 =>
    match expect_identifier s with
    | .error e => .error e
    | .ok (name, s) =>
      let name := in_loc s name
      match function f name s with
      | .error e => .error e
      | .ok (function, s) => .ok (at_loc (.Function function) 0 0, s)
termination_by structural f

/-- Modelled from the spec: `Parser::function`: parameter list and
brace-delimited body after the (mandatory here) name (§4.5). -/
def function (f : Nat) (name : Loc String) (s : ParserState) :
    Except PError (Function × ParserState) :=
  match f with
  | 0 => .error .UnexpectedEndOfInput
  | f+1 =>
    match expect .ParenOpen s with
    | .error e => .error e
    | .ok s =>
      match function_params f [] s with
      | .error e => .error e
      | .ok (params, s) =>
        match block_body f s with
        | .error e => .error e
        | .ok (body, s) => .ok (.mk (some name) params body, s)
termination_by structural f

/-- `Parser::class_statement` from lines 90-98: the name is required
(`expect_identifier!`). -/
def class_statement (f : Nat) (s : ParserState) :
    Except PError (Loc Statement × ParserState) :=
  match f with
  | 0 => .error .UnexpectedEndOfInput
  | f+1 =>
    match expect_identifier s with
    | .error e => .error e
    | .ok (name, s) =>
      let name := in_loc s name
      match class_ f name s with
      | .error e => .error e
      | .ok (cls, s) => .ok (at_loc (.Class cls) 0 0, s)

/-- `Parser::return_statement` from lines 100-122. -/
def return_statement (f : Nat) (s : ParserState) :
    Except PError (Loc Statement × ParserState) :=
  match f with
  | 0 => .error .UnexpectedEndOfInput
  | f+1 =>
    match asi s with
    | .NoSemicolon =>
      match sequence_or_expression f s with
      | .error e => .error e
      | .ok (expression, s) =>
        match expect_semicolon s with
        | .error e => .error e
        | .ok s => .ok (at_loc (.Return (some expression)) 0 0, s)
    | .ImplicitSemicolon => .ok (at_loc (.Return none) 0 0, s)
    | .ExplicitSemicolon => .ok (at_loc (.Return none) 0 0, consume s)

/-- `Parser::variable_declaration_statement` from lines 124-134. -/
def variable_declaration_statement (f : Nat) (kind : DeclarationKind) (s : ParserState) :
    Except PError (Loc Statement × ParserState) :=
  match f with
  | 0 => .error .UnexpectedEndOfInput
  | f+1 =>
    match variable_declarators f s with
    | .error e => .error e
    | .ok (declarators, s) =>
      match expect_semicolon s with
      | .error e => .error e
      | .ok s => .ok (at_loc (.Declaration kind declarators) 0 0, s)

/-- `Parser::variable_declarator` from lines 136-160: the name is an object
expression after `{`, an array expression after `[`, an identifier after an
identifier token, and a parse error otherwise; an optional `=` initializer
follows; the declarator is wrapped at `(0, 0)`. -/
def variable_declarator (f : Nat) (s : ParserState) :
    Except PError (Loc Declarator × ParserState) :=
  match f with
  | 0 => .error .UnexpectedEndOfInput
  | f+1 =>
    match next s with
    | (.BraceOpen, s) =>
      match object_expression f s with
      | .error e => .error e
      | .ok (name, s) => variable_declarator_value f name s
    | (.BracketOpen, s) =>
      match array_expression f s with
      | .error e => .error e
      | .ok (name, s) => variable_declarator_value f name s
    | (.Identifier name, s) => variable_declarator_value f (in_loc s (.Identifier name)) s
    | _ => .error .UnexpectedToken

/-- `Parser::variable_declarators` from lines 162-179: one or more
declarators separated by commas. -/
def variable_declarators (f : Nat) (s : ParserState) :
    Except PError (List (Loc Declarator) × ParserState) :=
  match f with
  | 0 => .error .UnexpectedEndOfInput
  | f+1 =>
    match variable_declarator f s with
    | .error e => .error e
    | .ok (d, s) =>
      match peek s with
      | .Comma => variable_declarators_tail f [d] (consume s)
      | _ => .ok ([d], s)

/-- The loop of `variable_declarators` (lines 171-178). -/
def variable_declarators_tail (f : Nat) (acc : List (Loc Declarator)) (s : ParserState) :
    Except PError (List (Loc Declarator) × ParserState) :=
  match f with
  | 0 => .error .UnexpectedEndOfInput
  | f+1 =>
    match variable_declarator f s with
    | .error e => .error e
    | .ok (d, s) =>
      match peek s with
      | .Comma => variable_declarators_tail f (acc ++ [d]) (consume s)
      | _ => .ok (acc ++ [d], s)
termination_by structural f

/-- `Parser::break_statement` from lines 181-201. -/
def break_statement (f : Nat) (s : ParserState) :
    Except PError (Loc Statement × ParserState) :=
  match f with
  | 0 => .error .UnexpectedEndOfInput
  | _+1 =>
    match asi s with
    | .ExplicitSemicolon => .ok (at_loc (.Break none) 0 0, consume s)
    | .ImplicitSemicolon => .ok (at_loc (.Break none) 0 0, s)
    | .NoSemicolon =>
      match expect_identifier s with
      | .error e => .error e
      | .ok (label, s) =>
        let label := in_loc s (Expression.Identifier label)
        match expect_semicolon s with
        | .error e => .error e
        | .ok s => .ok (at_loc (.Break (some label)) 0 0, s)

/-- `Parser::throw_statement` from lines 203-212. -/
def throw_statement (f : Nat) (s : ParserState) :
    Except PError (Loc Statement × ParserState) :=
  match f with
  | 0 => .error .UnexpectedEndOfInput
  | f+1 =>
    match sequence_or_expression f s with
    | .error e => .error e
    | .ok (value, s) =>
      match expect_semicolon s with
      | .error e => .error e
      | .ok s => .ok (at_loc (.Throw value) 0 0, s)

/-- `Parser::try_statement` from lines 214-232: a block body, `catch`, a
parenthesized identifier, a second block body, and a terminating
semicolon check; the result is `Try { body, error, handler }` at `(0, 0)`. -/
def try_statement (f : Nat) (s : ParserState) :
    Except PError (Loc Statement × ParserState) :=
  match f with
  | 0 => .error .UnexpectedEndOfInput
  | f+1 =>
    match block_body f s with
    | .error e => .error e
    | .ok (body, s) =>
      match expect .Catch s with
      | .error e => .error e
      | .ok s =>
        match expect .ParenOpen s with
        | .error e => .error e
        | .ok s =>
          match expect_identifier s with
          | .error e => .error e
          | .ok (error, s) =>
            let error := in_loc s (Expression.Identifier error)
            match expect .ParenClose s with
            | .error e => .error e
            | .ok s =>
              match block_body f s with
              | .error e => .error e
              | .ok (handler, s) =>
                match expect_semicolon s with
                | .error e => .error e
                | .ok s => .ok (at_loc (.Try body error handler) 0 0, s)
termination_by structural f

/-- `Parser::if_statement` from lines 234-259. -/
def if_statement (f : Nat) (s : ParserState) :
    Except PError (Loc Statement × ParserState) :=
  match f with
  | 0 => .error .UnexpectedEndOfInput
  | f+1 =>
    match expect .ParenOpen s with
    | .error e => .error e
    | .ok s =>
      match expression f 0 s with
      | .error e => .error e
      | .ok (test, s) =>
        match expect .ParenClose s with
        | .error e => .error e
        | .ok s =>
          match expect_statement f s with
          | .error e => .error e
          | .ok (consequent, s) =>
            match peek s with
            | .Else =>
              let s := consume s
              match expect_statement f s with
              | .error e => .error e
              | .ok (alternate, s) =>
                  .ok (at_loc (.If test consequent (some alternate)) 0 0, s)
            | _ => .ok (at_loc (.If test consequent none) 0 0, s)
termination_by structural f

/-- `Parser::while_statement` from lines 261-275. -/
def while_statement (f : Nat) (s : ParserState) :
    Except PError (Loc Statement × ParserState) :=
  match f with
  | 0 => .error .UnexpectedEndOfInput
  | f+1 =>
    match expect .ParenOpen s with
    | .error e => .error e
    | .ok s =>
      match expression f 0 s with
      | .error e => .error e
      | .ok (test, s) =>
        match expect .ParenClose s with
        | .error e => .error e
        | .ok s =>
          match expect_statement f s with
          | .error e => .error e
          | .ok (body, s) => .ok (at_loc (.While test body) 0 0, s)
termination_by structural f

/-- `Parser::do_statement` from lines 277-288. -/
def do_statement (f : Nat) (s : ParserState) :
    Except PError (Loc Statement × ParserState) :=
  match f with
  | 0 => .error .UnexpectedEndOfInput
  | f+1 =>
    match expect_statement f s with
    | .error e => .error e
    | .ok (body, s) =>
      match expect .While s with
      | .error e => .error e
      | .ok s =>
        match expression f 0 s with
        | .error e => .error e
        | .ok (test, s) => .ok (at_loc (.Do body test) 0 0, s)
termination_by structural f

/-- `Parser::for_statement` from lines 290-384: after `(`, a semicolon
means no init; a declaration keyword parses declarators and, when the sole
declarator's initializer is a Binary In expression, hands its right operand
and the (unchanged) declaration to the ForIn path; any other token parses
an expression, a top-level Binary In splitting into left and right
likewise; otherwise the init is kept and the In / `of` / `;` continuation
decides the loop form. -/
def for_statement (f : Nat) (s : ParserState) :
    Except PError (Loc Statement × ParserState) :=
  match f with
  | 0 => .error .UnexpectedEndOfInput
  | f+1 =>
    match expect .ParenOpen s with
    | .error e => .error e
    | .ok s =>
      match next s with
      | (.Semicolon, s) => for_statement_rest f none s
      | (.Declaration kind, s) =>
        match variable_declarators f s with
        | .error e => .error e
        | .ok (declarators, s) =>
          match declaration_in_right declarators with
          | some right =>
              for_in_statement_from_parts f
                (at_loc (.Declaration kind declarators) 0 0) right s
          | none => for_statement_cont f (at_loc (.Declaration kind declarators) 0 0) s
      | (t, s) =>
        match expression_from f t 0 s with
        | .error e => .error e
        | .ok (expression, s) =>
          match expression.item with
          | .Binary .In left right =>
              for_in_statement_from_parts f (at_loc (.Expression left) 0 0) right s
          | _ => for_statement_cont f (at_loc (.Expression expression) 0 0) s
termination_by structural f

/-- The `if let Some(init)` continuation of `for_statement` (lines
347-354): `in` continues as ForIn, the identifier `of` as ForOf, `;` as a
classic for; anything else is an error. -/
def for_statement_cont (f : Nat) (init : Loc Statement) (s : ParserState) :
    Except PError (Loc Statement × ParserState) :=
  match f with
  | 0 => .error .UnexpectedEndOfInput
  | f+1 =>
    match next s with
    | (.Operator .In, s) => for_in_statement f init s
    | (.Identifier label, s) =>
        if label = "of" then for_of_statement f init s else .error .UnexpectedToken
    | (.Semicolon, s) => for_statement_rest f (some init) s
    | _ => .error .UnexpectedToken
termination_by structural f

/-- The test clause of a classic for statement (lines 356-364). -/
def for_statement_rest (f : Nat) (init : Option (Loc Statement)) (s : ParserState) :
    Except PError (Loc Statement × ParserState) :=
  match f with
  | 0 => .error .UnexpectedEndOfInput
  | f+1 =>
    match next s with
    | (.Semicolon, s) => for_statement_update f init none s
    | (t, s) =>
      match expression_from f t 0 s with
      | .error e => .error e
      | .ok (test, s) =>
        match expect .Semicolon s with
        | .error e => .error e
        | .ok s => for_statement_update f init (some test) s
termination_by structural f

/-- The update clause of a classic for statement (lines 366-374). -/
def for_statement_update (f : Nat) (init : Option (Loc Statement))
    (test : Option (Loc Expression)) (s : ParserState) :
    Except PError (Loc Statement × ParserState) :=
  match f with
  | 0 => .error .UnexpectedEndOfInput
  | f+1 =>
    match next s with
    | (.ParenClose, s) => for_statement_body f init test none s
    | (t, s) =>
      match expression_from f t 0 s with
      | .error e => .error e
      | .ok (update, s) =>
        match expect .ParenClose s with
        | .error e => .error e
        | .ok s => for_statement_body f init test (some update) s
termination_by structural f

/-- The body of a classic for statement (lines 376-383). -/
def for_statement_body (f : Nat) (init : Option (Loc Statement))
    (test update : Option (Loc Expression)) (s : ParserState) :
    Except PError (Loc Statement × ParserState) :=
  match f with
  | 0 => .error .UnexpectedEndOfInput
  | f+1 =>
    match expect_statement f s with
    | .error e => .error e
    | .ok (body, s) => .ok (at_loc (.For init test update body) 0 0, s)
termination_by structural f

/-- `Parser::for_in_statement_from_parts` from lines 386-396. -/
def for_in_statement_from_parts (f : Nat) (left : Loc Statement)
    (right : Loc Expression) (s : ParserState) :
    Except PError (Loc Statement × ParserState) :=
  match f with
  | 0 => .error .UnexpectedEndOfInput
  | f+1 =>
    match expect .ParenClose s with
    | .error e => .error e
    | .ok s =>
      match expect_statement f s with
      | .error e => .error e
      | .ok (body, s) => .ok (at_loc (.ForIn left right body) 0 0, s)
termination_by structural f

/-- `Parser::for_in_statement` from lines 398-410. -/
def for_in_statement (f : Nat) (left : Loc Statement) (s : ParserState) :
    Except PError (Loc Statement × ParserState) :=
  match f with
  | 0 => .error .UnexpectedEndOfInput
  | f+1 =>
    match sequence_or_expression f s with
    | .error e => .error e
    | .ok (right, s) =>
      match expect .ParenClose s with
      | .error e => .error e
      | .ok s =>
        match expect_statement f s with
        | .error e => .error e
        | .ok (body, s) => .ok (at_loc (.ForIn left right body) 0 0, s)
termination_by structural f

/-- `Parser::for_of_statement` from lines 412-424. -/
def for_of_statement (f : Nat) (left : Loc Statement) (s : ParserState) :
    Except PError (Loc Statement × ParserState) :=
  match f with
  | 0 => .error .UnexpectedEndOfInput
  | f+1 =>
    match sequence_or_expression f s with
    | .error e => .error e
    | .ok (right, s) =>
      match expect .ParenClose s with
      | .error e => .error e
      | .ok s =>
        match expect_statement f s with
        | .error e => .error e
        | .ok (body, s) => .ok (at_loc (.ForOf left right body) 0 0, s)
termination_by structural f

end

/-! ### Helper observers used by the claim theorems -/

/-- Accessor for the `name` field of `Class`. -/
def Class.name : Class → Option (Loc String)
  | .mk n _ _ => n

/-- Does an expression have one of the three declarator name forms
(Identifier, Array, Object) listed by spec §3? -/
def isIdentArrayObject : Expression → Bool
  | .Identifier _ => true
  | .Array _ => true
  | .Object _ => true
  | _ => false

/-- Immediate parent-child location containment for a block statement:
every child statement's span lies within the parent's span. -/
def directChildrenWithin (p : Loc Statement) : Bool :=
  match p.item with
  | .Block body =>
      body.all (fun c => decide (p.start ≤ c.start) && decide (c.stop ≤ p.stop))
  | _ => true

/-- The initializer of the sole declarator of the left-hand Declaration of
a ForIn statement, when the statement has that shape. -/
def for_in_left_declarator_init : Loc Statement → Option (Loc Expression)
  | ⟨_, _, .ForIn ⟨_, _, .Declaration _ ds⟩ _ _⟩ =>
    match only_element ds with
    | some ⟨_, _, .mk _ value⟩ => value
    | none => none
  | _ => none

/-- Is the given optional expression a top-level Binary whose operator is
In? -/
def is_binary_in : Option (Loc Expression) → Bool
  | some ⟨_, _, .Binary .In _ _⟩ => true
  | _ => false

/-- Claim C8: the binding_power function on expressions returns exactly the
table values: 18 for Member and Arrow expressions, 17 for Call expressions,
15 for Prefix expressions, the operator's own binding power for Binary and
Postfix expressions, 4 for Conditional expressions, and 0 for Sequence
expressions. -/
theorem c8_binding_power_table :
    (∀ object property, Expression.binding_power (.Member object property) = 18)
    ∧ (∀ params body, Expression.binding_power (.Arrow params body) = 18)
    ∧ (∀ callee arguments, Expression.binding_power (.Call callee arguments) = 17)
    ∧ (∀ operator operand, Expression.binding_power ( .Prefix operator operand) = 15)
    ∧ (∀ operator left right, Expression.binding_power (.Binary operator left right)
        = OperatorKind.binding_power operator)
    ∧ (∀ operator operand, Expression.binding_power ( .Postfix operator operand)
        = OperatorKind.binding_power operator)
    ∧ (∀ test consequent alternate,
        Expression.binding_power (.Conditional test consequent alternate) = 4)
    ∧ (∀ body, Expression.binding_power (.Sequence body) = 0) := by
  refine ⟨?_, ?_, ?_, ?_, ?_, ?_, ?_, ?_⟩ <;> intros <;> rfl

/-- Claim C9: is_allowed_as_bare_statement returns false exactly for the
Object, Function and Class expression variants and true for every other
expression variant. -/
theorem c9_is_allowed_as_bare_statement :
    (∀ body, Expression.is_allowed_as_bare_statement (.Object body) = false)
    ∧ (∀ function, Expression.is_allowed_as_bare_statement (.Function function) = false)
    ∧ (∀ cls, Expression.is_allowed_as_bare_statement (.Class cls) = false)
    ∧ (∀ e : Expression,
        (∀ body, e ≠ .Object body) →
        (∀ function, e ≠ .Function function) →
        (∀ cls, e ≠ .Class cls) →
        Expression.is_allowed_as_bare_statement e = true) := by
  refine ⟨fun _ => rfl, fun _ => rfl, fun _ => rfl, ?_⟩
  intro e hobj hfn hcls
  cases e with
  | Object body => exact absurd rfl (hobj body)
  | Function function => exact absurd rfl (hfn function)
  | Class cls => exact absurd rfl (hcls cls)
  | _ => rfl

/-- Witness for C9: evaluated at the This expression, which is none of
Object, Function, Class and is allowed as a bare statement. -/
theorem c9_is_allowed_as_bare_statement_witness :
    Expression.is_allowed_as_bare_statement .This = true :=
  c9_is_allowed_as_bare_statement.2.2.2 .This
    (fun _ h => Expression.noConfusion h)
    (fun _ h => Expression.noConfusion h)
    (fun _ h => Expression.noConfusion h)

/-- Counterexample for C3: serializing a declarator id holding an Object
pattern panics (modelled as none) rather than emitting an ObjectPattern
object, and the ArrayPattern object produced for an Array pattern has no
start field: the start offset is emitted under the field name self. -/
theorem c3_counterexample :
    serializeLocDeclaratorId 3 (Loc.new 4 10 (.Pattern (Loc.new 4 10 (.Object [])))) = none
    ∧ serializeLocDeclaratorId 3 (Loc.new 4 10 (.Pattern (Loc.new 4 10 (.Array []))))
        = some (.obj [("type", .str "ArrayPattern"), ("elements", .arr []),
            ("self", .num 4), ("end", .num 10)])
    ∧ (serializeLocDeclaratorId 3 (Loc.new 4 10 (.Pattern (Loc.new 4 10 (.Array []))))).bind
        (fun j => jsonField j "start") = none
    ∧ (serializeLocDeclaratorId 3 (Loc.new 4 10 (.Pattern (Loc.new 4 10 (.Array []))))).bind
        (fun j => jsonField j "self") = some (.num 4) :=
  ⟨rfl, rfl, rfl, rfl⟩

/-- Claim C3 (amended): a declarator id holding an Array pattern serializes
to a JSON object with type ArrayPattern carrying its elements and an end
field, but the start offset is emitted under the field name self; a
declarator id holding an Object pattern does not serialize: the serializer
panics (modelled as none). -/
theorem c3_declarator_id_patterns (f start stop es ep : Nat)
    (body : List (Loc Expression)) (elements : List Json)
    (objBody : List (Loc ObjectMember))
    (h : serializeExpressionList f body = some elements) :
    serializeLocDeclaratorId (f+1) (Loc.new start stop (.Pattern (Loc.new es ep (.Array body))))
      = some (.obj [("type", .str "ArrayPattern"), ("elements", .arr elements),
          ("self", .num start), ("end", .num stop)])
    ∧ serializeLocDeclaratorId (f+1) (Loc.new start stop (.Pattern (Loc.new es ep (.Object objBody))))
      = none := by
  constructor
  · simp only [serializeLocDeclaratorId, Loc.new, h]
    rfl
  · rfl

/-- Witness for C3: the amended theorem evaluated on an empty Array pattern
and an empty Object pattern at offsets 4..10. -/
theorem c3_declarator_id_patterns_witness :
    serializeLocDeclaratorId 2 (Loc.new 4 10 (.Pattern (Loc.new 4 10 (.Array []))))
      = some (.obj [("type", .str "ArrayPattern"), ("elements", .arr []),
          ("self", .num 4), ("end", .num 10)])
    ∧ serializeLocDeclaratorId 2 (Loc.new 4 10 (.Pattern (Loc.new 4 10 (.Object []))))
      = none :=
  c3_declarator_id_patterns 1 4 10 4 10 [] [] [] rfl

/-- Claim C10: when a Try statement is serialized, the emitted inner
BlockStatement for the try body, the emitted CatchClause, and the
CatchClause's inner BlockStatement all carry the enclosing Try statement's
own start and end offsets. -/
theorem c10_try_serialization_offsets (f start stop : Nat)
    (body handler : List (Loc Statement)) (error : Loc Expression)
    (bodyJson handlerJson : List Json) (paramJson : Json)
    (hbody : serializeStatementList (f+1) body = some bodyJson)
    (hparam : serializeExpression (f+1) error = some paramJson)
    (hhandler : serializeStatementList f handler = some handlerJson) :
    serializeLocStatement (f+3) (Loc.new start stop (.Try body error handler))
      = some (.obj [("type", .str "TryStatement"),
          ("block", .obj [("type", .str "BlockStatement"), ("body", .arr bodyJson),
            ("start", .num start), ("end", .num stop)]),
          ("handler", .obj [("type", .str "CatchClause"), ("param", paramJson),
            ("body", .obj [("type", .str "BlockStatement"), ("body", .arr handlerJson),
              ("start", .num start), ("end", .num stop)]),
            ("start", .num start), ("end", .num stop)]),
          ("start", .num start), ("end", .num stop)]) := by
  simp only [serializeLocStatement, serializeLocBlockStatement, serializeLocCatchClause,
    Loc.new, hbody, hparam, hhandler, Option.bind_some]
  rfl

/-- Witness for C10: the serialization of an empty try-catch at offsets
0..19 with parameter identifier e at 15..16. -/
theorem c10_try_serialization_offsets_witness :
    serializeLocStatement 4 (Loc.new 0 19 (.Try [] (Loc.new 15 16 (.Identifier "e")) []))
      = some (.obj [("type", .str "TryStatement"),
          ("block", .obj [("type", .str "BlockStatement"), ("body", .arr []),
            ("start", .num 0), ("end", .num 19)]),
          ("handler", .obj [("type", .str "CatchClause"),
            ("param", .obj [("type", .str "Identifier"), ("name", .str "e"),
              ("start", .num 15), ("end", .num 16)]),
            ("body", .obj [("type", .str "BlockStatement"), ("body", .arr []),
              ("start", .num 0), ("end", .num 19)]),
            ("start", .num 0), ("end", .num 19)]),
          ("start", .num 0), ("end", .num 19)]) :=
  c10_try_serialization_offsets 1 0 19 [] [] (Loc.new 15 16 (.Identifier "e"))
    [] [] (.obj [("type", .str "Identifier"), ("name", .str "e"),
      ("start", .num 15), ("end", .num 16)]) rfl rfl rfl

/-! ### Helper lemmas about the parser

The fuel-guarded definitions reduce definitionally at a successor fuel
value; the following equations restate one unfolding step of each function
the proofs below case on. -/

/-- One unfolding step of object_members at successor fuel. -/
theorem object_members_succ (f : Nat) (start : Nat) (acc : List (Loc ObjectMember))
    (s : ParserState) :
    object_members (f+1) start acc s =
      (match next s with
      | (.Identifier label, s) =>
        match next s with
        | (.Comma, s') =>
            object_members f start (acc ++ [in_loc s (ObjectMember.Shorthand label)]) s'
        | (.BraceClose, s') =>
            .ok (⟨start, s'.lastStop, .Object (acc ++ [in_loc s (ObjectMember.Shorthand label)])⟩, s')
        | _ => .error .UnexpectedToken
      | _ => .error .UnexpectedToken) := rfl

/-- One unfolding step of object_expression at successor fuel. -/
theorem object_expression_succ (f : Nat) (s : ParserState) :
    object_expression (f+1) s =
      (match peek s with
      | .BraceClose =>
          .ok (⟨s.lastStart, (consume s).lastStop, .Object []⟩, consume s)
      | _ => object_members f s.lastStart [] s) := rfl

/-- One unfolding step of array_elements at successor fuel. -/
theorem array_elements_succ (f : Nat) (start : Nat) (acc : List (Loc Expression))
    (s : ParserState) :
    array_elements (f+1) start acc s =
      (match expression f 0 s with
      | .error e => .error e
      | .ok (item, s) =>
        match next s with
        | (.Comma, s) => array_elements f start (acc ++ [item]) s
        | (.BracketClose, s) => .ok (⟨start, s.lastStop, .Array (acc ++ [item])⟩, s)
        | _ => .error .UnexpectedToken) := rfl

/-- One unfolding step of array_expression at successor fuel. -/
theorem array_expression_succ (f : Nat) (s : ParserState) :
    array_expression (f+1) s =
      (match peek s with
      | .BracketClose =>
          .ok (⟨s.lastStart, (consume s).lastStop, .Array []⟩, consume s)
      | _ => array_elements f s.lastStart [] s) := rfl

/-- One unfolding step of the function sub-parser at successor fuel. -/
theorem function_succ (f : Nat) (nm : Loc String) (s : ParserState) :
    function (f+1) nm s =
      (match expect .ParenOpen s with
      | .error e => .error e
      | .ok s =>
        match function_params f [] s with
        | .error e => .error e
        | .ok (params, s) =>
          match block_body f s with
          | .error e => .error e
          | .ok (body, s) => .ok (.mk (some nm) params body, s)) := rfl

/-- One unfolding step of the class sub-parser at successor fuel. -/
theorem class_succ (f : Nat) (nm : Loc String) (s : ParserState) :
    class_ (f+1) nm s =
      (match expect .BraceOpen s with
      | .error e => .error e
      | .ok s =>
        match expect .BraceClose s with
        | .error e => .error e
        | .ok s => .ok (.mk (some nm) none [], s)) := rfl

/-- One unfolding step of variable_declarator at successor fuel. -/
theorem variable_declarator_succ (f : Nat) (s : ParserState) :
    variable_declarator (f+1) s =
      (match next s with
      | (.BraceOpen, s) =>
        match object_expression f s with
        | .error e => .error e
        | .ok (name, s) => variable_declarator_value f name s
      | (.BracketOpen, s) =>
        match array_expression f s with
        | .error e => .error e
        | .ok (name, s) => variable_declarator_value f name s
      | (.Identifier name, s) => variable_declarator_value f (in_loc s (.Identifier name)) s
      | _ => .error .UnexpectedToken) := rfl

/-- One unfolding step of variable_declarator_value at successor fuel. -/
theorem variable_declarator_value_succ (f : Nat) (name : Loc Expression) (s : ParserState) :
    variable_declarator_value (f+1) name s =
      (match peek s with
      | .Operator .Assign =>
        match expression f 0 (consume s) with
        | .error e => .error e
        | .ok (value, s) => .ok (Loc.new 0 0 (.mk name (some value)), s)
      | _ => .ok (Loc.new 0 0 (.mk name none), s)) := rfl

/-- The modelled expect_identifier succeeds on an identifier token. -/
theorem expect_identifier_eq (s s1 : ParserState) (label : String)
    (h : next s = (.Identifier label, s1)) :
    expect_identifier s = .ok (label, s1) := by
  unfold expect_identifier
  rw [h]

/-- The modelled expect_identifier fails with MissingName on any
non-identifier token. -/
theorem expect_identifier_missing (s s1 : ParserState) (t : Token)
    (h : next s = (t, s1)) (hne : ∀ label, t ≠ .Identifier label) :
    expect_identifier s = .error .MissingName := by
  unfold expect_identifier
  rw [h]
  cases t <;> first | rfl | exact absurd rfl (hne _)

/-- A successful object_members parse yields an Object expression. -/
theorem object_members_object (f : Nat) :
    ∀ (start : Nat) (acc : List (Loc ObjectMember)) (s s' : ParserState) (e : Loc Expression),
    object_members f start acc s = .ok (e, s') → ∃ body, e.item = .Object body := by
  induction f with
  | zero =>
    intro start acc s s' e h
    exact Except.noConfusion h
  | succ f ih =>
    intro start acc s s' e h
    rw [object_members_succ] at h
    split at h
    · split at h
      · exact ih _ _ _ _ _ h
      · injection h with hp
        injection hp with h1 h2
        rw [← h1]
        exact ⟨_, rfl⟩
      · exact Except.noConfusion h
    · exact Except.noConfusion h

/-- A successful object_expression parse yields an Object expression. -/
theorem object_expression_object (f : Nat) (s s' : ParserState) (e : Loc Expression)
    (h : object_expression f s = .ok (e, s')) : ∃ body, e.item = .Object body := by
  cases f with
  | zero => exact Except.noConfusion h
  | succ f =>
    rw [object_expression_succ] at h
    split at h
    · injection h with hp
      injection hp with h1 h2
      rw [← h1]
      exact ⟨_, rfl⟩
    · exact object_members_object f _ _ _ _ _ h

/-- A successful array_elements parse yields an Array expression. -/
theorem array_elements_array (f : Nat) :
    ∀ (start : Nat) (acc : List (Loc Expression)) (s s' : ParserState) (e : Loc Expression),
    array_elements f start acc s = .ok (e, s') → ∃ body, e.item = .Array body := by
  induction f with
  | zero =>
    intro start acc s s' e h
    exact Except.noConfusion h
  | succ f ih =>
    intro start acc s s' e h
    rw [array_elements_succ] at h
    split at h
    · exact Except.noConfusion h
    · split at h
      · exact ih _ _ _ _ _ h
      · injection h with hp
        injection hp with h1 h2
        rw [← h1]
        exact ⟨_, rfl⟩
      · exact Except.noConfusion h

/-- A successful array_expression parse yields an Array expression. -/
theorem array_expression_array (f : Nat) (s s' : ParserState) (e : Loc Expression)
    (h : array_expression f s = .ok (e, s')) : ∃ body, e.item = .Array body := by
  cases f with
  | zero => exact Except.noConfusion h
  | succ f =>
    rw [array_expression_succ] at h
    split at h
    · injection h with hp
      injection hp with h1 h2
      rw [← h1]
      exact ⟨_, rfl⟩
    · exact array_elements_array f _ _ _ _ _ h

/-- The function sub-parser always installs the name it is handed. -/
theorem function_name_eq (f : Nat) (nm : Loc String) (s s' : ParserState) (fn : Function)
    (h : function f nm s = .ok (fn, s')) : Function.name fn = some nm := by
  cases f with
  | zero => exact Except.noConfusion h
  | succ f =>
    rw [function_succ] at h
    split at h
    · exact Except.noConfusion h
    · split at h
      · exact Except.noConfusion h
      · split at h
        · exact Except.noConfusion h
        · injection h with hp
          injection hp with h1 h2
          rw [← h1]
          rfl

/-- One unfolding step of block_statement at successor fuel. -/
theorem block_statement_succ (f : Nat) (s : ParserState) :
    block_statement (f+1) s =
      (match block_body_tail f s with
      | .error e => .error e
      | .ok (body, s) => .ok (at_loc (.Block body) 0 0, s)) := rfl

/-- One unfolding step of function_statement at successor fuel. -/
theorem function_statement_succ (f : Nat) (s : ParserState) :
    function_statement (f+1) s =
      (match expect_identifier s with
      | .error e => .error e
      | .ok (name, s) =>
        match function f (in_loc s name) s with
        | .error e => .error e
        | .ok (fn, s) => .ok (at_loc (.Function fn) 0 0, s)) := rfl

/-- One unfolding step of class_statement at successor fuel. -/
theorem class_statement_succ (f : Nat) (s : ParserState) :
    class_statement (f+1) s =
      (match expect_identifier s with
      | .error e => .error e
      | .ok (name, s) =>
        match class_ f (in_loc s name) s with
        | .error e => .error e
        | .ok (cls, s) => .ok (at_loc (.Class cls) 0 0, s)) := rfl

/-- One unfolding step of for_statement at successor fuel. -/
theorem for_statement_succ (f : Nat) (s : ParserState) :
    for_statement (f+1) s =
      (match expect .ParenOpen s with
      | .error e => .error e
      | .ok s =>
        match next s with
        | (.Semicolon, s) => for_statement_rest f none s
        | (.Declaration kind, s) =>
          match variable_declarators f s with
          | .error e => .error e
          | .ok (declarators, s) =>
            match declaration_in_right declarators with
            | some right =>
                for_in_statement_from_parts f
                  (at_loc (.Declaration kind declarators) 0 0) right s
            | none => for_statement_cont f (at_loc (.Declaration kind declarators) 0 0) s
        | (t, s) =>
          match expression_from f t 0 s with
          | .error e => .error e
          | .ok (expression, s) =>
            match expression.item with
            | .Binary .In left right =>
                for_in_statement_from_parts f (at_loc (.Expression left) 0 0) right s
            | _ => for_statement_cont f (at_loc (.Expression expression) 0 0) s) := rfl

/-- One unfolding step of for_in_statement_from_parts at successor fuel. -/
theorem for_in_statement_from_parts_succ (f : Nat) (left : Loc Statement)
    (right : Loc Expression) (s : ParserState) :
    for_in_statement_from_parts (f+1) left right s =
      (match expect .ParenClose s with
      | .error e => .error e
      | .ok s =>
        match expect_statement f s with
        | .error e => .error e
        | .ok (body, s) => .ok (at_loc (.ForIn left right body) 0 0, s)) := rfl

/-- One unfolding step of try_statement at successor fuel. -/
theorem try_statement_succ (f : Nat) (s : ParserState) :
    try_statement (f+1) s =
      (match block_body f s with
      | .error e => .error e
      | .ok (body, s1) =>
        match expect .Catch s1 with
        | .error e => .error e
        | .ok s2 =>
          match expect .ParenOpen s2 with
          | .error e => .error e
          | .ok s3 =>
            match expect_identifier s3 with
            | .error e => .error e
            | .ok (err, s4) =>
              match expect .ParenClose s4 with
              | .error e => .error e
              | .ok s5 =>
                match block_body f s5 with
                | .error e => .error e
                | .ok (handler, s6) =>
                  match expect_semicolon s6 with
                  | .error e => .error e
                  | .ok s7 =>
                      .ok (at_loc (.Try body (in_loc s4 (Expression.Identifier err)) handler) 0 0, s7)) := rfl

/-- The class sub-parser always installs the name it is handed. -/
theorem class_name_eq (f : Nat) (nm : Loc String) (s s' : ParserState) (cls : Class)
    (h : class_ f nm s = .ok (cls, s')) : Class.name cls = some nm := by
  cases f with
  | zero => exact Except.noConfusion h
  | succ f =>
    rw [class_succ] at h
    split at h
    · exact Except.noConfusion h
    · split at h
      · exact Except.noConfusion h
      · injection h with hp
        injection hp with h1 h2
        rw [← h1]
        rfl

/-- The initializer half of a declarator keeps the name it is handed. -/
theorem variable_declarator_value_name (f : Nat) (name : Loc Expression)
    (s s' : ParserState) (d : Loc Declarator)
    (h : variable_declarator_value f name s = .ok (d, s')) :
    Declarator.name d.item = name := by
  cases f with
  | zero => exact Except.noConfusion h
  | succ f =>
    rw [variable_declarator_value_succ] at h
    split at h
    · split at h
      · exact Except.noConfusion h
      · injection h with hp
        injection hp with h1 h2
        rw [← h1]
        rfl
    · injection h with hp
      injection hp with h1 h2
      rw [← h1]
      rfl

/-! ### The claim theorems about the statement parser -/

/-- Counterexample for C2: the statement dispatcher has no continue or
switch arms; both keywords fall through to the expression-statement
handler, which rejects them with UnexpectedToken, so neither a Continue nor
a Switch statement is ever produced for them. -/
theorem c2_counterexample :
    statement 20 .Continue ⟨[⟨8, 9, false, .Semicolon⟩], 0, 8⟩ = .error .UnexpectedToken
    ∧ statement 20 .Switch ⟨[⟨8, 9, false, .Semicolon⟩], 0, 8⟩ = .error .UnexpectedToken
    ∧ statement 20 .Continue ⟨[⟨8, 9, false, .Semicolon⟩], 0, 8⟩
        = expression_statement 19 .Continue ⟨[⟨8, 9, false, .Semicolon⟩], 0, 8⟩
    ∧ statement 20 .Switch ⟨[⟨8, 9, false, .Semicolon⟩], 0, 8⟩
        = expression_statement 19 .Switch ⟨[⟨8, 9, false, .Semicolon⟩], 0, 8⟩ :=
  ⟨rfl, rfl, rfl, rfl⟩

/-- Claim C2 (amended): the statement dispatcher routes a semicolon to
Empty, an identifier to the labeled-or-expression handler, an opening brace
to the block handler, a declaration keyword to the variable-declaration
handler, and return, break, throw, try, if, while, do, for, function and
class to their dedicated handlers; continue and switch have no dedicated
arms and fall through to the expression-statement handler like every other
token outside the dispatch set. -/
theorem c2_statement_dispatch (f : Nat) (s : ParserState) (label : String)
    (kind : DeclarationKind) :
    statement (f+1) .Semicolon s = .ok (in_loc s .Empty, s)
    ∧ statement (f+1) (.Identifier label) s = labeled_or_expression_statement f label s
    ∧ statement (f+1) .BraceOpen s = block_statement f s
    ∧ statement (f+1) (.Declaration kind) s = variable_declaration_statement f kind s
    ∧ statement (f+1) .Return s = return_statement f s
    ∧ statement (f+1) .Break s = break_statement f s
    ∧ statement (f+1) .Function s = function_statement f s
    ∧ statement (f+1) .Class s = class_statement f s
    ∧ statement (f+1) .If s = if_statement f s
    ∧ statement (f+1) .While s = while_statement f s
    ∧ statement (f+1) .Do s = do_statement f s
    ∧ statement (f+1) .For s = for_statement f s
    ∧ statement (f+1) .Throw s = throw_statement f s
    ∧ statement (f+1) .Try s = try_statement f s
    ∧ statement (f+1) .Continue s = expression_statement f .Continue s
    ∧ statement (f+1) .Switch s = expression_statement f .Switch s :=
  ⟨rfl, rfl, rfl, rfl, rfl, rfl, rfl, rfl, rfl, rfl, rfl, rfl, rfl, rfl, rfl, rfl⟩

/-- Counterexample for C4: parsing a block that contains one expression
statement yields the block at placeholder offsets (0, 0) while the child
statement carries the expression's span (2, 6); the child's end exceeds the
parent's end, so parent-child location containment fails. -/
theorem c4_counterexample :
    statement 20 .BraceOpen ⟨[⟨2, 6, false, .Literal .True⟩, ⟨7, 8, false, .BraceClose⟩], 0, 1⟩
      = .ok (⟨0, 0, .Block [⟨2, 6, .Expression ⟨2, 6, .Literal .True⟩⟩]⟩, ⟨[], 7, 8⟩)
    ∧ directChildrenWithin ⟨0, 0, .Block [⟨2, 6, .Expression ⟨2, 6, .Literal .True⟩⟩]⟩ = false :=
  ⟨rfl, rfl⟩

/-- Claim C4 (amended): statement nodes built by the block handler carry
placeholder offsets start = end = 0, which satisfy 0 ≤ start ≤ end; the
parent-child containment half of the claim fails, since a child statement
of a block may end after the block's placeholder end. -/
theorem c4_block_statement_placeholder (f : Nat) (s s' : ParserState) (r : Loc Statement)
    (h : block_statement f s = .ok (r, s')) :
    r.start = 0 ∧ r.stop = 0 ∧ r.start ≤ r.stop := by
  cases f with
  | zero => exact Except.noConfusion h
  | succ f =>
    rw [block_statement_succ] at h
    split at h
    · exact Except.noConfusion h
    · injection h with hp
      injection hp with h1 h2
      rw [← h1]
      exact ⟨rfl, rfl, Nat.le_refl 0⟩

/-- Witness for C4: the amended theorem evaluated on the parse of a block
holding a single true-literal expression statement. -/
theorem c4_block_statement_placeholder_witness :
    (Loc.new 0 0 (Statement.Block [Loc.new 2 6 (.Expression (Loc.new 2 6 (.Literal .True)))])).start = 0
    ∧ (Loc.new 0 0 (Statement.Block [Loc.new 2 6 (.Expression (Loc.new 2 6 (.Literal .True)))])).stop = 0
    ∧ (Loc.new 0 0 (Statement.Block [Loc.new 2 6 (.Expression (Loc.new 2 6 (.Literal .True)))])).start
        ≤ (Loc.new 0 0 (Statement.Block [Loc.new 2 6 (.Expression (Loc.new 2 6 (.Literal .True)))])).stop :=
  c4_block_statement_placeholder 19
    ⟨[⟨2, 6, false, .Literal .True⟩, ⟨7, 8, false, .BraceClose⟩], 0, 1⟩ ⟨[], 7, 8⟩
    (Loc.new 0 0 (Statement.Block [Loc.new 2 6 (.Expression (Loc.new 2 6 (.Literal .True)))])) rfl

/-- Claim C6: when the function or class keyword in statement position is
not immediately followed by an identifier, the parse fails with a
MissingName error; with an identifier present, the declaration statement
carries that identifier as its name. -/
theorem c6_declaration_names (f : Nat) (s s1 s2 s3 : ParserState) (t : Token)
    (label : String) (fn : Function) (cls : Class) :
    (next s = (t, s1) → (∀ l, t ≠ .Identifier l) →
      function_statement (f+1) s = .error .MissingName
      ∧ class_statement (f+1) s = .error .MissingName)
    ∧ (next s = (.Identifier label, s1) →
        function f (in_loc s1 label) s1 = .ok (fn, s2) →
        function_statement (f+1) s = .ok (at_loc (.Function fn) 0 0, s2)
        ∧ Function.name fn = some (in_loc s1 label))
    ∧ (next s = (.Identifier label, s1) →
        class_ f (in_loc s1 label) s1 = .ok (cls, s3) →
        class_statement (f+1) s = .ok (at_loc (.Class cls) 0 0, s3)
        ∧ Class.name cls = some (in_loc s1 label)) := by
  refine ⟨?_, ?_, ?_⟩
  · intro hnext hne
    have hei := expect_identifier_missing s s1 t hnext hne
    exact ⟨by simp only [function_statement_succ, hei], by simp only [class_statement_succ, hei]⟩
  · intro hnext hfn
    have hei := expect_identifier_eq s s1 label hnext
    refine ⟨?_, function_name_eq f (in_loc s1 label) s1 s2 fn hfn⟩
    simp only [function_statement_succ, hei, hfn]
  · intro hnext hcls
    have hei := expect_identifier_eq s s1 label hnext
    refine ⟨?_, class_name_eq f (in_loc s1 label) s1 s3 cls hcls⟩
    simp only [class_statement_succ, hei, hcls]

/-- Witness for C6: a function statement with no identifier fails with
MissingName, and one named foo carries the name foo at offsets 9..12. -/
theorem c6_declaration_names_witness :
    function_statement 20 ⟨[⟨8, 9, false, .ParenOpen⟩, ⟨9, 10, false, .ParenClose⟩,
        ⟨11, 12, false, .BraceOpen⟩, ⟨12, 13, false, .BraceClose⟩], 0, 8⟩ = .error .MissingName
    ∧ class_statement 20 ⟨[⟨8, 9, false, .ParenOpen⟩, ⟨9, 10, false, .ParenClose⟩,
        ⟨11, 12, false, .BraceOpen⟩, ⟨12, 13, false, .BraceClose⟩], 0, 8⟩ = .error .MissingName
    ∧ function_statement 20 ⟨[⟨9, 12, false, .Identifier "foo"⟩, ⟨12, 13, false, .ParenOpen⟩,
        ⟨13, 14, false, .ParenClose⟩, ⟨15, 16, false, .BraceOpen⟩,
        ⟨16, 17, false, .BraceClose⟩], 0, 8⟩
        = .ok (at_loc (.Function (.mk (some (Loc.new 9 12 "foo")) [] [])) 0 0, ⟨[], 16, 17⟩)
    ∧ Function.name (.mk (some (Loc.new 9 12 "foo")) [] []) = some (Loc.new 9 12 "foo") := by
  have hA := (c6_declaration_names 19
    ⟨[⟨8, 9, false, .ParenOpen⟩, ⟨9, 10, false, .ParenClose⟩,
      ⟨11, 12, false, .BraceOpen⟩, ⟨12, 13, false, .BraceClose⟩], 0, 8⟩
    ⟨[⟨9, 10, false, .ParenClose⟩, ⟨11, 12, false, .BraceOpen⟩,
      ⟨12, 13, false, .BraceClose⟩], 8, 9⟩
    ⟨[], 0, 0⟩ ⟨[], 0, 0⟩ .ParenOpen "x" (.mk none [] []) (.mk none none [])).1
    rfl (fun _ h => Token.noConfusion h)
  have hB := (c6_declaration_names 19
    ⟨[⟨9, 12, false, .Identifier "foo"⟩, ⟨12, 13, false, .ParenOpen⟩,
      ⟨13, 14, false, .ParenClose⟩, ⟨15, 16, false, .BraceOpen⟩,
      ⟨16, 17, false, .BraceClose⟩], 0, 8⟩
    ⟨[⟨12, 13, false, .ParenOpen⟩, ⟨13, 14, false, .ParenClose⟩,
      ⟨15, 16, false, .BraceOpen⟩, ⟨16, 17, false, .BraceClose⟩], 9, 12⟩
    ⟨[], 16, 17⟩ ⟨[], 0, 0⟩ .EndOfProgram "foo"
    (.mk (some (Loc.new 9 12 "foo")) [] []) (.mk none none [])).2.1 rfl rfl
  exact ⟨hA.1, hA.2, hB.1, hB.2⟩

/-- Claim C7: a successfully parsed declarator's name is an Identifier, an
Array expression, or an Object expression; any other token beginning a
declarator is a parse error. -/
theorem c7_variable_declarator_name_forms (f : Nat) (s s1 : ParserState) (t : Token) :
    (∀ (d : Loc Declarator) (s' : ParserState),
      variable_declarator f s = .ok (d, s') →
      isIdentArrayObject (Declarator.name d.item).item = true)
    ∧ (next s = (t, s1) → t ≠ .BraceOpen → t ≠ .BracketOpen →
        (∀ label, t ≠ .Identifier label) →
        variable_declarator (f+1) s = .error .UnexpectedToken) := by
  constructor
  · cases f with
    | zero =>
      intro d s' h
      exact Except.noConfusion h
    | succ f =>
      intro d s' h
      rw [variable_declarator_succ] at h
      rcases hnext : next s with ⟨t0, s2⟩
      rw [hnext] at h
      cases t0 <;> try exact Except.noConfusion h
      case BraceOpen =>
        replace h : ((match object_expression f s2 with
          | .error e => .error e
          | .ok (name, s) => variable_declarator_value f name s :
            Except PError (Loc Declarator × ParserState))) = .ok (d, s') := h
        cases ho : object_expression f s2 with
        | error e => rw [ho] at h; exact Except.noConfusion h
        | ok p =>
          obtain ⟨name, s3⟩ := p
          rw [ho] at h
          have hname := variable_declarator_value_name f name s3 s' d h
          obtain ⟨body, hbody⟩ := object_expression_object f s2 s3 name ho
          rw [hname, hbody]
          rfl
      case BracketOpen =>
        replace h : ((match array_expression f s2 with
          | .error e => .error e
          | .ok (name, s) => variable_declarator_value f name s :
            Except PError (Loc Declarator × ParserState))) = .ok (d, s') := h
        cases ho : array_expression f s2 with
        | error e => rw [ho] at h; exact Except.noConfusion h
        | ok p =>
          obtain ⟨name, s3⟩ := p
          rw [ho] at h
          have hname := variable_declarator_value_name f name s3 s' d h
          obtain ⟨body, hbody⟩ := array_expression_array f s2 s3 name ho
          rw [hname, hbody]
          rfl
      case Identifier label =>
        have hname := variable_declarator_value_name f (in_loc s2 (.Identifier label)) s2 s' d h
        rw [hname]
        rfl
  · intro hnext h1 h2 h3
    rw [variable_declarator_succ, hnext]
    cases t
    case BraceOpen => exact absurd rfl h1
    case BracketOpen => exact absurd rfl h2
    case Identifier label => exact absurd rfl (h3 label)
    all_goals rfl

/-- Witness for C7: a declarator beginning with the identifier x parses to
an Identifier-named declarator, and one beginning with the In operator
token is an UnexpectedToken parse error. -/
theorem c7_variable_declarator_name_forms_witness :
    isIdentArrayObject
      (Declarator.name
        (Loc.new 0 0 (Declarator.mk (Loc.new 9 10 (.Identifier "x")) none)).item).item = true
    ∧ variable_declarator 20 ⟨[⟨4, 5, false, .Operator .In⟩], 0, 3⟩
        = .error .UnexpectedToken := by
  constructor
  · exact (c7_variable_declarator_name_forms 20 ⟨[⟨9, 10, false, .Identifier "x"⟩], 0, 8⟩
      ⟨[], 0, 0⟩ .EndOfProgram).1
      (Loc.new 0 0 (Declarator.mk (Loc.new 9 10 (.Identifier "x")) none)) ⟨[], 9, 10⟩ rfl
  · exact (c7_variable_declarator_name_forms 19 ⟨[⟨4, 5, false, .Operator .In⟩], 0, 3⟩
      ⟨[], 4, 5⟩ (.Operator .In)).2 rfl
      (fun h => Token.noConfusion h) (fun h => Token.noConfusion h)
      (fun _ h => Token.noConfusion h)

/-- Counterexample for C1: parsing the header of
for ( let x = 1 in y ) with an empty block body yields a ForIn whose left
declaration still holds the full Binary In expression as the declarator's
initializer: the in operator is not discarded from the initializer. -/
theorem c1_counterexample :
    for_statement 20 ⟨[
        ⟨4, 5, false, .ParenOpen⟩, ⟨5, 8, false, .Declaration .Let⟩,
        ⟨9, 10, false, .Identifier "x"⟩, ⟨11, 12, false, .Operator .Assign⟩,
        ⟨13, 14, false, .Literal (.Number "1")⟩, ⟨15, 17, false, .Operator .In⟩,
        ⟨18, 19, false, .Identifier "y"⟩, ⟨19, 20, false, .ParenClose⟩,
        ⟨21, 22, false, .BraceOpen⟩, ⟨22, 23, false, .BraceClose⟩], 0, 3⟩
      = .ok (⟨0, 0, .ForIn
          ⟨0, 0, .Declaration .Let [⟨0, 0, .mk ⟨9, 10, .Identifier "x"⟩
            (some ⟨13, 19, .Binary .In ⟨13, 14, .Literal (.Number "1")⟩
              ⟨18, 19, .Identifier "y"⟩⟩)⟩]⟩
          ⟨18, 19, .Identifier "y"⟩ ⟨0, 0, .Block []⟩⟩, ⟨[], 22, 23⟩)
    ∧ is_binary_in (for_in_left_declarator_init
        ⟨0, 0, .ForIn
          ⟨0, 0, .Declaration .Let [⟨0, 0, .mk ⟨9, 10, .Identifier "x"⟩
            (some ⟨13, 19, .Binary .In ⟨13, 14, .Literal (.Number "1")⟩
              ⟨18, 19, .Identifier "y"⟩⟩)⟩]⟩
          ⟨18, 19, .Identifier "y"⟩ ⟨0, 0, .Block []⟩⟩) = true :=
  ⟨rfl, rfl⟩

/-- Claim C1 (amended): for every for-statement whose header begins with a
declaration keyword and whose declarator list has exactly one declarator
whose initializer is a Binary expression with operator In, the parser
extracts the Binary expression's right operand as the ForIn right-hand
side, packages the declaration as the ForIn left with the declarator list
unchanged (the initializer, its In operator included, stays inside the
left), and returns a ForIn statement. -/
theorem c1_for_statement_decl_in (f : Nat) (kind : DeclarationKind)
    (s s1 s2 s3 s4 s5 : ParserState) (declarators : List (Loc Declarator))
    (d : Loc Declarator) (nm value l r : Loc Expression) (body : Loc Statement)
    (h0 : expect .ParenOpen s = .ok s1)
    (h1 : next s1 = (.Declaration kind, s2))
    (h2 : variable_declarators (f+1) s2 = .ok (declarators, s3))
    (h3 : only_element declarators = some d)
    (h4 : d.item = .mk nm (some value))
    (h5 : value.item = .Binary .In l r)
    (h6 : expect .ParenClose s3 = .ok s4)
    (h7 : expect_statement f s4 = .ok (body, s5)) :
    for_statement (f+1+1) s
      = .ok (at_loc (.ForIn (at_loc (.Declaration kind declarators) 0 0) r body) 0 0, s5) := by
  have hdir : declaration_in_right declarators = some r := by
    obtain ⟨ds, dp, ditem⟩ := d
    obtain ⟨dnm, dval⟩ := ditem
    injection h4 with h4a h4b
    subst h4a
    subst h4b
    unfold declaration_in_right
    rw [h3]
    show (match value.item with
      | .Binary .In _ right => some right
      | _ => none) = some r
    rw [h5]
  simp only [for_statement_succ, h0, h1, h2, hdir, for_in_statement_from_parts_succ, h6, h7]

/-- Witness for C1: the amended theorem evaluated on the token stream of
for ( let x = 1 in y ) with an empty block body. -/
theorem c1_for_statement_decl_in_witness :
    for_statement 20 ⟨[
        ⟨4, 5, false, .ParenOpen⟩, ⟨5, 8, false, .Declaration .Let⟩,
        ⟨9, 10, false, .Identifier "x"⟩, ⟨11, 12, false, .Operator .Assign⟩,
        ⟨13, 14, false, .Literal (.Number "1")⟩, ⟨15, 17, false, .Operator .In⟩,
        ⟨18, 19, false, .Identifier "y"⟩, ⟨19, 20, false, .ParenClose⟩,
        ⟨21, 22, false, .BraceOpen⟩, ⟨22, 23, false, .BraceClose⟩], 0, 3⟩
      = .ok (at_loc (.ForIn
          (at_loc (.Declaration .Let [Loc.new 0 0 (.mk (Loc.new 9 10 (.Identifier "x"))
            (some (Loc.new 13 19 (.Binary .In (Loc.new 13 14 (.Literal (.Number "1")))
              (Loc.new 18 19 (.Identifier "y"))))))]) 0 0)
          (Loc.new 18 19 (.Identifier "y")) (Loc.new 0 0 (.Block []))) 0 0, ⟨[], 22, 23⟩) :=
  c1_for_statement_decl_in 18 .Let
    ⟨[⟨4, 5, false, .ParenOpen⟩, ⟨5, 8, false, .Declaration .Let⟩,
      ⟨9, 10, false, .Identifier "x"⟩, ⟨11, 12, false, .Operator .Assign⟩,
      ⟨13, 14, false, .Literal (.Number "1")⟩, ⟨15, 17, false, .Operator .In⟩,
      ⟨18, 19, false, .Identifier "y"⟩, ⟨19, 20, false, .ParenClose⟩,
      ⟨21, 22, false, .BraceOpen⟩, ⟨22, 23, false, .BraceClose⟩], 0, 3⟩
    ⟨[⟨5, 8, false, .Declaration .Let⟩, ⟨9, 10, false, .Identifier "x"⟩,
      ⟨11, 12, false, .Operator .Assign⟩, ⟨13, 14, false, .Literal (.Number "1")⟩,
      ⟨15, 17, false, .Operator .In⟩, ⟨18, 19, false, .Identifier "y"⟩,
      ⟨19, 20, false, .ParenClose⟩, ⟨21, 22, false, .BraceOpen⟩,
      ⟨22, 23, false, .BraceClose⟩], 4, 5⟩
    ⟨[⟨9, 10, false, .Identifier "x"⟩, ⟨11, 12, false, .Operator .Assign⟩,
      ⟨13, 14, false, .Literal (.Number "1")⟩, ⟨15, 17, false, .Operator .In⟩,
      ⟨18, 19, false, .Identifier "y"⟩, ⟨19, 20, false, .ParenClose⟩,
      ⟨21, 22, false, .BraceOpen⟩, ⟨22, 23, false, .BraceClose⟩], 5, 8⟩
    ⟨[⟨19, 20, false, .ParenClose⟩, ⟨21, 22, false, .BraceOpen⟩,
      ⟨22, 23, false, .BraceClose⟩], 18, 19⟩
    ⟨[⟨21, 22, false, .BraceOpen⟩, ⟨22, 23, false, .BraceClose⟩], 19, 20⟩
    ⟨[], 22, 23⟩
    [Loc.new 0 0 (.mk (Loc.new 9 10 (.Identifier "x"))
      (some (Loc.new 13 19 (.Binary .In (Loc.new 13 14 (.Literal (.Number "1")))
        (Loc.new 18 19 (.Identifier "y"))))))]
    (Loc.new 0 0 (.mk (Loc.new 9 10 (.Identifier "x"))
      (some (Loc.new 13 19 (.Binary .In (Loc.new 13 14 (.Literal (.Number "1")))
        (Loc.new 18 19 (.Identifier "y")))))))
    (Loc.new 9 10 (.Identifier "x"))
    (Loc.new 13 19 (.Binary .In (Loc.new 13 14 (.Literal (.Number "1")))
      (Loc.new 18 19 (.Identifier "y"))))
    (Loc.new 13 14 (.Literal (.Number "1")))
    (Loc.new 18 19 (.Identifier "y"))
    (Loc.new 0 0 (.Block []))
    rfl rfl rfl rfl rfl rfl rfl rfl

/-- Claim C5: an input of the form try Block catch ( Identifier ) Block
parses to a Try statement holding the first block as body, the identifier
as error, and the second block as handler; a non-identifier catch
parameter is rejected; and serializing a Try statement emits a block field
holding a BlockStatement and a handler field holding a CatchClause object
with param and body fields. -/
theorem c5_try_statement_shape (f : Nat) (s s1 s2 s3 s4 s5 s6 s7 : ParserState)
    (body handler : List (Loc Statement)) (e : String) (t : Token)
    (hb1 : block_body f s = .ok (body, s1))
    (hc : expect .Catch s1 = .ok s2)
    (hp : expect .ParenOpen s2 = .ok s3) :
    (next s3 = (.Identifier e, s4) →
      expect .ParenClose s4 = .ok s5 →
      block_body f s5 = .ok (handler, s6) →
      expect_semicolon s6 = .ok s7 →
      try_statement (f+1) s
        = .ok (at_loc (.Try body (in_loc s4 (.Identifier e)) handler) 0 0, s7))
    ∧ (next s3 = (t, s4) → (∀ l, t ≠ .Identifier l) →
        try_statement (f+1) s = .error .MissingName)
    ∧ (∀ (g a b : Nat) (bodyJson handlerJson : List Json) (paramJson : Json)
        (errorE : Loc Expression),
        serializeStatementList (g+1) body = some bodyJson →
        serializeExpression (g+1) errorE = some paramJson →
        serializeStatementList g handler = some handlerJson →
        serializeLocStatement (g+3) (Loc.new a b (.Try body errorE handler))
          = some (.obj [("type", .str "TryStatement"),
              ("block", .obj [("type", .str "BlockStatement"), ("body", .arr bodyJson),
                ("start", .num a), ("end", .num b)]),
              ("handler", .obj [("type", .str "CatchClause"), ("param", paramJson),
                ("body", .obj [("type", .str "BlockStatement"), ("body", .arr handlerJson),
                  ("start", .num a), ("end", .num b)]),
                ("start", .num a), ("end", .num b)]),
              ("start", .num a), ("end", .num b)])) := by
  refine ⟨?_, ?_, ?_⟩
  · intro h4 h5 h6 h7
    have hei := expect_identifier_eq s3 s4 e h4
    simp only [try_statement_succ, hb1, hc, hp, hei, h5, h6, h7]
  · intro h4 hne
    have hei := expect_identifier_missing s3 s4 t h4 hne
    simp only [try_statement_succ, hb1, hc, hp, hei]
  · intro g a b bodyJson handlerJson paramJson errorE hsb hsp hsh
    simp only [serializeLocStatement, serializeLocBlockStatement, serializeLocCatchClause,
      Loc.new, hsb, hsp, hsh, Option.bind_some]
    rfl

/-- Witness for C5: the theorem evaluated on the token stream of
try Block catch ( e ) Block with empty blocks, on a variant whose catch
parameter is the numeric literal 1 (rejected), and on the serialization of
the resulting Try statement. -/
theorem c5_try_statement_shape_witness :
    try_statement 20 ⟨[
        ⟨4, 5, false, .BraceOpen⟩, ⟨5, 6, false, .BraceClose⟩, ⟨7, 12, false, .Catch⟩,
        ⟨13, 14, false, .ParenOpen⟩, ⟨14, 15, false, .Identifier "e"⟩,
        ⟨15, 16, false, .ParenClose⟩, ⟨17, 18, false, .BraceOpen⟩,
        ⟨18, 19, false, .BraceClose⟩], 0, 3⟩
      = .ok (at_loc (.Try [] (Loc.new 14 15 (.Identifier "e")) []) 0 0, ⟨[], 18, 19⟩)
    ∧ try_statement 20 ⟨[
        ⟨4, 5, false, .BraceOpen⟩, ⟨5, 6, false, .BraceClose⟩, ⟨7, 12, false, .Catch⟩,
        ⟨13, 14, false, .ParenOpen⟩, ⟨14, 15, false, .Literal (.Number "1")⟩,
        ⟨15, 16, false, .ParenClose⟩, ⟨17, 18, false, .BraceOpen⟩,
        ⟨18, 19, false, .BraceClose⟩], 0, 3⟩ = .error .MissingName
    ∧ serializeLocStatement 4 (Loc.new 0 19 (.Try [] (Loc.new 14 15 (.Identifier "e")) []))
        = some (.obj [("type", .str "TryStatement"),
            ("block", .obj [("type", .str "BlockStatement"), ("body", .arr []),
              ("start", .num 0), ("end", .num 19)]),
            ("handler", .obj [("type", .str "CatchClause"),
              ("param", .obj [("type", .str "Identifier"), ("name", .str "e"),
                ("start", .num 14), ("end", .num 15)]),
              ("body", .obj [("type", .str "BlockStatement"), ("body", .arr []),
                ("start", .num 0), ("end", .num 19)]),
              ("start", .num 0), ("end", .num 19)]),
            ("start", .num 0), ("end", .num 19)]) := by
  have hGood := c5_try_statement_shape 19
    ⟨[⟨4, 5, false, .BraceOpen⟩, ⟨5, 6, false, .BraceClose⟩, ⟨7, 12, false, .Catch⟩,
      ⟨13, 14, false, .ParenOpen⟩, ⟨14, 15, false, .Identifier "e"⟩,
      ⟨15, 16, false, .ParenClose⟩, ⟨17, 18, false, .BraceOpen⟩,
      ⟨18, 19, false, .BraceClose⟩], 0, 3⟩
    ⟨[⟨7, 12, false, .Catch⟩, ⟨13, 14, false, .ParenOpen⟩,
      ⟨14, 15, false, .Identifier "e"⟩, ⟨15, 16, false, .ParenClose⟩,
      ⟨17, 18, false, .BraceOpen⟩, ⟨18, 19, false, .BraceClose⟩], 5, 6⟩
    ⟨[⟨13, 14, false, .ParenOpen⟩, ⟨14, 15, false, .Identifier "e"⟩,
      ⟨15, 16, false, .ParenClose⟩, ⟨17, 18, false, .BraceOpen⟩,
      ⟨18, 19, false, .BraceClose⟩], 7, 12⟩
    ⟨[⟨14, 15, false, .Identifier "e"⟩, ⟨15, 16, false, .ParenClose⟩,
      ⟨17, 18, false, .BraceOpen⟩, ⟨18, 19, false, .BraceClose⟩], 13, 14⟩
    ⟨[⟨15, 16, false, .ParenClose⟩, ⟨17, 18, false, .BraceOpen⟩,
      ⟨18, 19, false, .BraceClose⟩], 14, 15⟩
    ⟨[⟨17, 18, false, .BraceOpen⟩, ⟨18, 19, false, .BraceClose⟩], 15, 16⟩
    ⟨[], 18, 19⟩ ⟨[], 18, 19⟩ [] [] "e" .EndOfProgram rfl rfl rfl
  have hBad := c5_try_statement_shape 19
    ⟨[⟨4, 5, false, .BraceOpen⟩, ⟨5, 6, false, .BraceClose⟩, ⟨7, 12, false, .Catch⟩,
      ⟨13, 14, false, .ParenOpen⟩, ⟨14, 15, false, .Literal (.Number "1")⟩,
      ⟨15, 16, false, .ParenClose⟩, ⟨17, 18, false, .BraceOpen⟩,
      ⟨18, 19, false, .BraceClose⟩], 0, 3⟩
    ⟨[⟨7, 12, false, .Catch⟩, ⟨13, 14, false, .ParenOpen⟩,
      ⟨14, 15, false, .Literal (.Number "1")⟩, ⟨15, 16, false, .ParenClose⟩,
      ⟨17, 18, false, .BraceOpen⟩, ⟨18, 19, false, .BraceClose⟩], 5, 6⟩
    ⟨[⟨13, 14, false, .ParenOpen⟩, ⟨14, 15, false, .Literal (.Number "1")⟩,
      ⟨15, 16, false, .ParenClose⟩, ⟨17, 18, false, .BraceOpen⟩,
      ⟨18, 19, false, .BraceClose⟩], 7, 12⟩
    ⟨[⟨14, 15, false, .Literal (.Number "1")⟩, ⟨15, 16, false, .ParenClose⟩,
      ⟨17, 18, false, .BraceOpen⟩, ⟨18, 19, false, .BraceClose⟩], 13, 14⟩
    ⟨[⟨15, 16, false, .ParenClose⟩, ⟨17, 18, false, .BraceOpen⟩,
      ⟨18, 19, false, .BraceClose⟩], 14, 15⟩
    ⟨[], 0, 0⟩ ⟨[], 0, 0⟩ ⟨[], 0, 0⟩ [] [] "e" (.Literal (.Number "1")) rfl rfl rfl
  refine ⟨hGood.1 rfl rfl rfl rfl, hBad.2.1 rfl (fun _ h => Token.noConfusion h), ?_⟩
  exact hGood.2.2 1 0 19 [] []
    (.obj [("type", .str "Identifier"), ("name", .str "e"),
      ("start", .num 14), ("end", .num 15)])
    (Loc.new 14 15 (.Identifier "e")) rfl rfl rfl

end Ratel
